import Mathlib

/-!
# Verification of the S.A.M. decision engine core

Shallow embedding of the S.A.M. decision engine (Python sources under
`sam/` and `src/sam/`) into Lean 4, together with theorems settling the
specification claims about the Orientation cycle, the Utility Engine,
the Maturity Tracker and the Mental Health Monitor.

Conventions of the embedding:
* Python floats are modelled as exact rationals (`ℚ`); every constant in
  the source is a decimal literal, so this is faithful.
* Python dictionaries that the code only reads via a fixed set of keys
  are modelled as structures with exactly those fields; `dict.get(k, d)`
  on an optional key becomes an `Option` field with the default applied
  at the use site.
* Methods that mutate `self` become pure functions `State → State`
  (or `State → Args → State`).
* `deque(maxlen = n)` becomes a list with append-at-end that drops the
  oldest entries beyond `n` (`pushCap`).
* Exceptions: the top-level `try/except` of `Orientation.process_request`
  and `DecisionEngine.decide` are modelled by an explicit failure oracle
  (`Option String`): `some e` means some internal step raised `e`, and
  the embedding then takes exactly the `except` branch of the source.
-/

set_option allowUnsafeReducibility true in
attribute [semireducible] Rat.mul Rat.inv Rat.add Rat.sub

namespace SAM

/-- Maturity levels (`models.MaturityLevel`). -/
inductive MaturityLevel where
  | infant
  | child
  | adolescent
  | adult
deriving DecidableEq, Repr

/-- Mental health status indicators (`models.MentalHealthStatus`). -/
inductive MentalHealthStatus where
  | stable
  | excited
  | stressed
  | recursive
  | addictive
  | overwhelmed
deriving DecidableEq, Repr

/-- Goal types (`models.GoalType`); `_classify_goal_type` returns exactly
these six string values. -/
inductive GoalType where
  | answer
  | retrieve
  | create
  | analyze
  | plan
  | tool
deriving DecidableEq, Repr

/-- Step types that the code inspects (`step.get("type")`); the source
only compares against `"tool"` and `"llm"`. -/
inductive StepType where
  | tool
  | llm
  | cdp
  | wait
  | validate
deriving DecidableEq, Repr

/-- Decoding modes (`models.DecodingMode`). -/
inductive DecodingMode where
  | flow
  | deep
  | crisis
deriving DecidableEq, Repr

instance : Fintype MaturityLevel :=
  ⟨⟨{.infant, .child, .adolescent, .adult}, by decide⟩, by intro x; cases x <;> decide⟩

instance : Fintype GoalType :=
  ⟨⟨{.answer, .retrieve, .create, .analyze, .plan, .tool}, by decide⟩,
   by intro x; cases x <;> decide⟩

/-- The `.value` string of a maturity level. -/
def MaturityLevel.value : MaturityLevel → String
  | .infant => "infant"
  | .child => "child"
  | .adolescent => "adolescent"
  | .adult => "adult"

/-- Numeric index of a maturity level in the strict order
infant < child < adolescent < adult. -/
def MaturityLevel.idx : MaturityLevel → ℕ
  | .infant => 0
  | .child => 1
  | .adolescent => 2
  | .adult => 3

/-- Personality traits read by the engine (`models.PersonalityInfluence`);
the `tone`/`humor` fields are never read by the core and are omitted. -/
structure PersonalityInfluence where
  assertiveness : ℚ
  patience : ℚ
  creativity : ℚ
  analytical : ℚ
  social : ℚ
deriving DecidableEq, Repr

/-- The `estimates` triple of an action plan. -/
structure Estimates where
  quality : ℚ
  risk : ℚ
  spend : ℚ
deriving DecidableEq, Repr

/-- One plan step.  The source stores steps as free-form dicts; the core
reads only `step.get("type")`, and `_calculate_risk` additionally tests
whether `"data"` occurs in `str(step).lower()`, which we record as the
boolean feature `reprHasData` of the step. -/
structure Step where
  stepType : StepType
  reprHasData : Bool
deriving DecidableEq, Repr

/-- An action plan as inspected by the scoring code: goal type, steps,
estimates, and the applied policy tags. -/
structure ActionPlan where
  goalType : GoalType
  steps : List Step
  estimates : Estimates
  policies : List String
deriving DecidableEq, Repr

/-- The context flags read by the core (`context.get(...)` in the
Utility Engine and in `Orientation._analyze_goal`). -/
structure Ctx where
  requires_external_data : Bool
  requires_multiple_steps : Bool
  time_sensitive : Bool
  sensitive_data : Bool
  high_stakes : Bool
deriving DecidableEq, Repr

/-- A utility weight vector (the four keys used by
`sam/core/utility.py`). -/
structure Weights where
  goal : ℚ
  quality : ℚ
  risk : ℚ
  spend : ℚ
deriving DecidableEq, Repr

/-- clamp to [0,1]: `max(0.0, min(1.0, x))`. -/
def clamp01 (x : ℚ) : ℚ := max 0 (min 1 x)

namespace UtilityEngine

/-- `UtilityEngine.maturity_weights`: fixed base weight table keyed by
maturity level. -/
def maturity_weights : MaturityLevel → Weights
  | .infant => ⟨4/10, 3/10, 2/10, 1/10⟩
  | .child => ⟨35/100, 3/10, 2/10, 15/100⟩
  | .adolescent => ⟨3/10, 3/10, 2/10, 2/10⟩
  | .adult => ⟨25/100, 3/10, 2/10, 25/100⟩

/-- The five multiplicative trait tilts of
`UtilityEngine._adjust_weights_for_personality`. -/
def tilt_weights (w : Weights) (p : PersonalityInfluence) : Weights :=
  let w := if p.analytical > 7/10 then
      { w with quality := w.quality * (12/10), risk := w.risk * (11/10),
               goal := w.goal * (9/10) } else w
  let w := if p.creativity > 7/10 then
      { w with goal := w.goal * (11/10), quality := w.quality * (11/10),
               spend := w.spend * (9/10) } else w
  let w := if p.social > 7/10 then
      { w with goal := w.goal * (105/100), spend := w.spend * (95/100) } else w
  let w := if p.assertiveness > 7/10 then
      { w with risk := w.risk * (9/10), goal := w.goal * (105/100) } else w
  if p.patience > 7/10 then
    { w with quality := w.quality * (11/10), spend := w.spend * (9/10) } else w

/-- `UtilityEngine._adjust_weights_for_personality`: multiplicative
trait tilts followed by normalization to sum 1. -/
def adjust_weights_for_personality (w : Weights) (p : PersonalityInfluence) : Weights :=
  let w := tilt_weights w p
  let total := w.goal + w.quality + w.risk + w.spend
  ⟨w.goal / total, w.quality / total, w.risk / total, w.spend / total⟩

/-- `UtilityEngine._get_weights`. -/
def get_weights (level : MaturityLevel) (pers : Option PersonalityInfluence) : Weights :=
  match pers with
  | none => maturity_weights level
  | some p => adjust_weights_for_personality (maturity_weights level) p

/-- Count of steps of a given type (`sum(1 for step in plan.steps if
step.get("type") == t)`). -/
def countSteps (plan : ActionPlan) (t : StepType) : ℕ :=
  (plan.steps.filter (fun s => s.stepType = t)).length

/-- `UtilityEngine._calculate_goal_satisfaction`. -/
def calculate_goal_satisfaction (plan : ActionPlan) (ctx : Option Ctx) : ℚ :=
  let base : ℚ := 1/2
  let base := match plan.goalType with
    | .answer =>
        let base := if plan.steps.length ≥ 3 then base + 2/10 else base
        if plan.estimates.quality > 7/10 then base + 1/10 else base
    | .retrieve =>
        let base := if countSteps plan .tool ≥ 2 then base + 15/100 else base
        if plan.estimates.quality > 6/10 then base + 1/10 else base
    | .create =>
        let base := if countSteps plan .llm ≥ 2 then base + 2/10 else base
        if plan.estimates.quality > 6/10 then base + 1/10 else base
    | .analyze =>
        let base := if plan.steps.length ≥ 4 then base + 2/10 else base
        if plan.estimates.quality > 7/10 then base + 15/100 else base
    | .plan =>
        let base := if plan.steps.length ≥ 3 then base + 15/100 else base
        if plan.estimates.quality > 6/10 then base + 1/10 else base
    | .tool => base
  let base := match ctx with
    | none => base
    | some c =>
        let base := if c.requires_external_data ∧ plan.steps.any (fun s => s.stepType = .tool)
          then base + 1/10 else base
        if c.time_sensitive ∧ plan.estimates.spend < 8/10 then base + 1/10 else base
  min 1 base

/-- `UtilityEngine._assess_answer_accuracy`. -/
def assess_answer_accuracy (plan : ActionPlan) : ℚ :=
  min 1 (1/2 + (1/10) * (countSteps plan .llm : ℚ))

/-- `UtilityEngine._assess_completeness`. -/
def assess_completeness (plan : ActionPlan) : ℚ :=
  min 1 (4/10 + (1/10) * (plan.steps.length : ℚ))

/-- `UtilityEngine._assess_clarity`. -/
def assess_clarity (plan : ActionPlan) : ℚ :=
  if plan.steps.length ≤ 5 then 8/10 else 6/10

/-- `UtilityEngine._assess_precision`. -/
def assess_precision (plan : ActionPlan) : ℚ :=
  min 1 (1/2 + (1/10) * (countSteps plan .tool : ℚ))

/-- `UtilityEngine._assess_creativity`. -/
def assess_creativity (plan : ActionPlan) : ℚ :=
  min 1 (4/10 + (15/100) * (countSteps plan .llm : ℚ))

/-- `UtilityEngine._assess_analysis_depth`. -/
def assess_analysis_depth (plan : ActionPlan) : ℚ :=
  min 1 (4/10 + (15/100) * (countSteps plan .llm : ℚ))

/-- `UtilityEngine._assess_feasibility`. -/
def assess_feasibility (plan : ActionPlan) : ℚ :=
  if plan.steps.length ≤ 4 then 8/10 else 6/10

/-- `UtilityEngine._assess_efficiency`. -/
def assess_efficiency (plan : ActionPlan) : ℚ :=
  max 0 (1 - plan.estimates.spend)

/-- `UtilityEngine._assess_robustness`. -/
def assess_robustness (plan : ActionPlan) : ℚ :=
  min 1 (1/2 + (1/10) * (plan.steps.length : ℚ))

/-- `UtilityEngine._assess_safety`. -/
def assess_safety (plan : ActionPlan) : ℚ :=
  max 0 (1 - plan.estimates.risk)

/-- `UtilityEngine.quality_heuristics`: the per-goal-type weighting
table.  Its keys all carry a `_weight` suffix, exactly as in the
source. -/
def quality_heuristics : GoalType → List (String × ℚ)
  | .answer => [("accuracy_weight", 4/10), ("completeness_weight", 3/10),
      ("relevance_weight", 2/10), ("clarity_weight", 1/10)]
  | .retrieve => [("precision_weight", 4/10), ("recall_weight", 3/10),
      ("freshness_weight", 2/10), ("accessibility_weight", 1/10)]
  | .create => [("creativity_weight", 3/10), ("usefulness_weight", 3/10),
      ("completeness_weight", 2/10), ("originality_weight", 2/10)]
  | .analyze => [("depth_weight", 4/10), ("accuracy_weight", 3/10),
      ("insight_weight", 2/10), ("actionability_weight", 1/10)]
  | .plan => [("feasibility_weight", 3/10), ("completeness_weight", 3/10),
      ("efficiency_weight", 2/10), ("robustness_weight", 2/10)]
  | .tool => [("effectiveness_weight", 4/10), ("efficiency_weight", 3/10),
      ("reliability_weight", 2/10), ("safety_weight", 1/10)]

/-- The `quality_factors` dict built by `_calculate_quality`: bare
factor names (no `_weight` suffix) mapped to the per-goal-type
assessments.  The flat sub-assessors (`_assess_relevance` = 0.7,
`_assess_recall` = 0.7, `_assess_freshness` = 0.6,
`_assess_accessibility` = 0.8, `_assess_usefulness` = 0.7,
`_assess_originality` = 0.6, `_assess_analysis_accuracy` = 0.7,
`_assess_insight_potential` = 0.6, `_assess_actionability` = 0.7,
`_assess_effectiveness` = 0.7, `_assess_reliability` = 0.7) are
inlined as their constants. -/
def quality_factors (plan : ActionPlan) : List (String × ℚ) :=
  match plan.goalType with
  | .answer => [("accuracy", assess_answer_accuracy plan),
      ("completeness", assess_completeness plan),
      ("relevance", 7/10), ("clarity", assess_clarity plan)]
  | .retrieve => [("precision", assess_precision plan), ("recall", 7/10),
      ("freshness", 6/10), ("accessibility", 8/10)]
  | .create => [("creativity", assess_creativity plan), ("usefulness", 7/10),
      ("completeness", assess_completeness plan), ("originality", 6/10)]
  | .analyze => [("depth", assess_analysis_depth plan), ("accuracy", 7/10),
      ("insight", 6/10), ("actionability", 7/10)]
  | .plan => [("feasibility", assess_feasibility plan),
      ("completeness", assess_completeness plan),
      ("efficiency", assess_efficiency plan),
      ("robustness", assess_robustness plan)]
  | .tool => [("effectiveness", 7/10), ("efficiency", assess_efficiency plan),
      ("reliability", 7/10), ("safety", assess_safety plan)]

/-- `UtilityEngine._calculate_quality`: the loop
`for factor, weight in heuristics.items(): if factor in quality_factors:
weighted_quality += weight * quality_factors[factor]` looks the
`_weight`-suffixed heuristics keys up among the bare factor names, so
no key ever matches, `weighted_quality` stays 0.0, and the returned
quality is `min(1, 0.7 * base_quality)` (see
`calculate_quality_eq_seventy_percent_base`). -/
def calculate_quality (plan : ActionPlan) : ℚ :=
  let base := plan.estimates.quality
  let factors := quality_factors plan
  let weighted : ℚ := (quality_heuristics plan.goalType).foldl
    (fun acc fw =>
      match factors.lookup fw.1 with
      | some v => acc + fw.2 * v
      | none => acc) 0
  min 1 ((7/10) * base + (3/10) * weighted)

/-- `UtilityEngine._calculate_risk`. -/
def calculate_risk (plan : ActionPlan) (ctx : Option Ctx) : ℚ :=
  let externalTools := countSteps plan .tool
  let factors : ℚ :=
    (if externalTools > 0 then (1/10) * (externalTools : ℚ) else 0)
    + (if plan.steps.length > 5 then 1/10 else 0)
    + (if plan.estimates.spend > 8/10 then 1/10 else 0)
    + (if "no_pii_exfil" ∈ plan.policies ∧ plan.steps.any (fun s => s.reprHasData)
       then 2/10 else 0)
    + (match ctx with
       | none => 0
       | some c => (if c.sensitive_data then 2/10 else 0)
           + (if c.high_stakes then 15/100 else 0))
  min 1 (plan.estimates.risk + factors)

/-- `UtilityEngine._calculate_spend`. -/
def calculate_spend (plan : ActionPlan) : ℚ :=
  let externalTools := countSteps plan .tool
  let factors : ℚ :=
    min (2/10) ((plan.steps.length : ℚ) * (5/100))
    + (if externalTools > 0 then (1/10) * (externalTools : ℚ) else 0)
    + (if plan.estimates.quality > 8/10 then 1/10 else 0)
  min 1 (plan.estimates.spend + factors)

/-- Result record of `UtilityEngine.calculate_utility` (the dict with
keys `utility`, `components`, `weights`). -/
structure UtilityResult where
  utility : ℚ
  G : ℚ
  Q : ℚ
  R : ℚ
  S : ℚ
  weights : Weights
deriving DecidableEq, Repr

/-- `UtilityEngine.calculate_utility`. -/
def calculate_utility (plan : ActionPlan) (level : MaturityLevel)
    (pers : Option PersonalityInfluence) (ctx : Option Ctx) : UtilityResult :=
  let weights := get_weights level pers
  let G := calculate_goal_satisfaction plan ctx
  let Q := calculate_quality plan
  let R := calculate_risk plan ctx
  let S := calculate_spend plan
  let utility := weights.goal * G + weights.quality * Q - weights.risk * R - weights.spend * S
  { utility := max 0 (min 1 utility), G := G, Q := Q, R := R, S := S, weights := weights }

end UtilityEngine

/-- Mental health metrics (`models.MentalHealthMetrics`). -/
structure MentalHealthMetrics where
  status : MentalHealthStatus
  stress_level : ℚ
  excitement_level : ℚ
  recursive_loop_count : ℕ
  addictive_behavior_score : ℚ
  impulse_control_score : ℚ
  emotional_stability : ℚ
  burnout_risk : ℚ
deriving DecidableEq, Repr

/-- The fresh metrics both the monitor and the tracker initialise with. -/
def initialMetrics : MentalHealthMetrics :=
  { status := .stable, stress_level := 0, excitement_level := 0,
    recursive_loop_count := 0, addictive_behavior_score := 0,
    impulse_control_score := 1, emotional_stability := 1, burnout_risk := 0 }

/-- Append at the right end of a `deque(maxlen = cap)`: the oldest
entries beyond `cap` are evicted. -/
def pushCap {α : Type} (cap : ℕ) (x : α) (l : List α) : List α :=
  let l := l ++ [x]
  l.drop (l.length - cap)

/-- The last `n` elements of a list (Python `l[-n:]`). -/
def takeLast {α : Type} (n : ℕ) (l : List α) : List α :=
  l.drop (l.length - n)

/-- The decision fields that `MentalHealthMonitor` reads from a recorded
decision dict.  `success`/`confidence`/`complexity`/`urgency` carry the
`dict.get` defaults of `_analyze_decision_impact` applied by the caller
of the embedding when a key is missing; `validationSeeking` models
`d.get("goal_type") == "validation" or d.get("seeking_approval")`. -/
structure MHDecision where
  complexity : ℚ
  urgency : ℚ
  success : Bool
  confidence : ℚ
  validationSeeking : Bool
  planning_time : ℚ
deriving DecidableEq, Repr

/-- Thought-pattern kinds the monitor compares against. -/
inductive PatternType where
  | validation_seeking
  | impulsive
  | other
deriving DecidableEq, Repr

/-- A thought pattern as read by the monitor: its type, repetition
count, similarity score, and the input/output reference sets used by the
circular-reference heuristic (references modelled as numeric ids). -/
structure ThoughtPattern where
  ptype : PatternType
  repetition_count : ℕ
  similarity_score : ℚ
  inputs : List ℕ
  outputs : List ℕ
deriving DecidableEq, Repr

/-- Emotional event kinds compared against in
`_update_emotional_stability`. -/
inductive EventType where
  | success
  | failure
  | surprise
  | validation
  | rejection
  | otherEvent
deriving DecidableEq, Repr

/-- An emotional event record (type and intensity; the context dict is
never read back). -/
structure EmotionalEvent where
  etype : EventType
  intensity : ℚ
deriving DecidableEq, Repr

/-- `MentalHealthMonitor` state: current metrics plus the three bounded
rolling histories and the optional personality. -/
structure Monitor where
  metrics : MentalHealthMetrics
  decision_history : List MHDecision
  thought_patterns : List ThoughtPattern
  emotional_events : List EmotionalEvent
  personality : Option PersonalityInfluence
deriving DecidableEq, Repr

namespace Monitor

/-- `MentalHealthMonitor._update_mental_health_status`: the fixed
priority derivation of the discrete status from the numeric fields
(thresholds from `self.thresholds`). -/
def deriveStatus (m : MentalHealthMetrics) : MentalHealthStatus :=
  if m.stress_level > 7/10 then .stressed
  else if m.excitement_level > 8/10 then .excited
  else if m.recursive_loop_count ≥ 3 then .recursive
  else if m.addictive_behavior_score ≥ 6/10 then .addictive
  else if m.burnout_risk ≥ 8/10 then .overwhelmed
  else .stable

/-- `MentalHealthMonitor._analyze_decision_impact`. -/
def analyze_decision_impact (m : MentalHealthMetrics) (d : MHDecision) : MentalHealthMetrics :=
  let stress_increase := (d.complexity * (3/10) + d.urgency * (4/10)) * (1 - d.confidence)
  let stress_increase := if ¬ d.success then stress_increase * (15/10) else stress_increase
  let m := { m with stress_level := min 1 (m.stress_level + stress_increase) }
  let m := if d.success ∧ d.confidence > 8/10 then
      { m with excitement_level := min 1 (m.excitement_level + (1/10) * d.confidence) }
    else m
  if d.complexity > 8/10 ∧ d.urgency > 8/10 then
    { m with burnout_risk := min 1 (m.burnout_risk + 5/100) }
  else m

/-- `MentalHealthMonitor._update_emotional_state`: stress and excitement
decay by the fixed `decay_rate = 0.05`.  Note: the source computes
personality-dependent adjustments of the local `decay_rate` variable
only *after* both subtractions have already been performed, so they have
no effect on the state; the embedding reproduces the actual effect. -/
def update_emotional_state (m : MentalHealthMetrics) : MentalHealthMetrics :=
  { m with stress_level := max 0 (m.stress_level - 5/100),
           excitement_level := max 0 (m.excitement_level - 5/100) }

/-- `MentalHealthMonitor._detect_addictive_behavior` (operates on the
history that already contains the new decision). -/
def detect_addictive_behavior (hist : List MHDecision) (m : MentalHealthMetrics) :
    MentalHealthMetrics :=
  if hist.length < 10 then m
  else
    let recent := takeLast 20 hist
    let vs := (recent.filter (fun d => d.validationSeeking)).length
    if (vs : ℚ) > (recent.length : ℚ) * (3/10) then
      { m with addictive_behavior_score := min 1 (m.addictive_behavior_score + 1/10) }
    else m

/-- `MentalHealthMonitor._detect_impulse_control_issues`. -/
def detect_impulse_control_issues (hist : List MHDecision) (m : MentalHealthMetrics) :
    MentalHealthMetrics :=
  if hist.length < 5 then m
  else
    let recent := takeLast 10 hist
    let imp := (recent.filter (fun d => d.planning_time < 1 ∧ d.complexity > 1/2)).length
    if (imp : ℚ) > (recent.length : ℚ) * (4/10) then
      { m with impulse_control_score := max 0 (m.impulse_control_score - 5/100) }
    else m

/-- `MentalHealthMonitor._detect_burnout_indicators`. -/
def detect_burnout_indicators (hist : List MHDecision) (m : MentalHealthMetrics) :
    MentalHealthMetrics :=
  if m.stress_level > 7/10 ∧ m.burnout_risk > 1/2 then
    if hist.length ≥ 10 then
      let recent := takeLast 10 hist
      let successRate : ℚ :=
        ((recent.filter (fun d => d.success)).length : ℚ) / (recent.length : ℚ)
      if successRate < 6/10 then
        { m with burnout_risk := min 1 (m.burnout_risk + 1/10) }
      else m
    else m
  else m

/-- `MentalHealthMonitor._detect_problematic_patterns`. -/
def detect_problematic_patterns (hist : List MHDecision) (m : MentalHealthMetrics) :
    MentalHealthMetrics :=
  detect_burnout_indicators hist (detect_impulse_control_issues hist
    (detect_addictive_behavior hist m))

/-- `MentalHealthMonitor.update_from_decision`. -/
def update_from_decision (mon : Monitor) (d : MHDecision) : Monitor :=
  let hist := pushCap 100 d mon.decision_history
  let m := analyze_decision_impact mon.metrics d
  let m := update_emotional_state m
  let m := detect_problematic_patterns hist m
  let m := { m with status := deriveStatus m }
  { mon with metrics := m, decision_history := hist }

/-- `MentalHealthMonitor._analyze_thought_pattern`. -/
def analyze_thought_pattern (m : MentalHealthMetrics) (p : ThoughtPattern) :
    MentalHealthMetrics :=
  let m := if p.repetition_count > 3 ∧ p.similarity_score > 8/10 then
      { m with recursive_loop_count := m.recursive_loop_count + 1 }
    else m
  let m := if p.ptype = .validation_seeking ∧ p.repetition_count > 2 then
      { m with addictive_behavior_score := min 1 (m.addictive_behavior_score + 1/10) }
    else m
  if p.ptype = .impulsive ∧ p.repetition_count > 1 then
    { m with impulse_control_score := max 0 (m.impulse_control_score - 5/100) }
  else m

/-- `MentalHealthMonitor._is_circular_reference`. -/
def is_circular_reference (p1 p2 : ThoughtPattern) : Bool :=
  p1.outputs.any (fun x => p2.inputs.contains x)
    && p2.outputs.any (fun x => p1.inputs.contains x)

/-- The number of index pairs `i < j` among recent patterns that form a
circular reference (the double loop in `_detect_recursive_loops`). -/
def countCircularPairs : List ThoughtPattern → ℕ
  | [] => 0
  | p :: rest =>
      (rest.filter (fun q => is_circular_reference p q)).length + countCircularPairs rest

/-- `MentalHealthMonitor._detect_recursive_loops` (operates on the
pattern history that already contains the new pattern). -/
def detect_recursive_loops (patterns : List ThoughtPattern) (m : MentalHealthMetrics) :
    MentalHealthMetrics :=
  if patterns.length < 5 then m
  else if countCircularPairs (takeLast 10 patterns) ≥ 2 then
    { m with recursive_loop_count := m.recursive_loop_count + 1 }
  else m

/-- `MentalHealthMonitor.update_from_thought_pattern`. -/
def update_from_thought_pattern (mon : Monitor) (p : ThoughtPattern) : Monitor :=
  let patterns := pushCap 50 p mon.thought_patterns
  let m := analyze_thought_pattern mon.metrics p
  let m := detect_recursive_loops patterns m
  { mon with metrics := m, thought_patterns := patterns }

/-- `MentalHealthMonitor._update_emotional_stability`. -/
def update_emotional_stability (m : MentalHealthMetrics) (t : EventType) (intensity : ℚ) :
    MentalHealthMetrics :=
  let change : ℚ := match t with
    | .success => (2/100) * intensity
    | .failure => -(3/100) * intensity
    | .surprise => -(1/100) * intensity
    | .validation => (1/100) * intensity
    | .rejection => -(2/100) * intensity
    | .otherEvent => 0
  { m with emotional_stability := max 0 (min 1 (m.emotional_stability + change)) }

/-- Population variance of a list of rationals (the inner computation of
`_calculate_volatility`; the source finally takes `variance ** 0.5`). -/
def variance (values : List ℚ) : ℚ :=
  if values.length < 2 then 0
  else
    let n : ℚ := (values.length : ℚ)
    let mean := values.sum / n
    ((values.map (fun x => (x - mean) ^ 2)).sum) / n

/-- `MentalHealthMonitor._check_emotional_instability`.  The source
compares `sqrt variance > 0.3`; both sides are nonnegative, so this is
equivalent to `variance > 0.09`, which keeps the embedding rational. -/
def check_emotional_instability (events : List EmotionalEvent) (m : MentalHealthMetrics) :
    MentalHealthMetrics :=
  if events.length < 10 then m
  else
    let recent := takeLast 20 events
    let v := variance (recent.map (fun e => e.intensity))
    if v > (3/10) ^ 2 then
      { m with emotional_stability := max 0 (m.emotional_stability - 5/100) }
    else m

/-- `MentalHealthMonitor.record_emotional_event`. -/
def record_emotional_event (mon : Monitor) (t : EventType) (intensity : ℚ) : Monitor :=
  let events := pushCap 200 ⟨t, intensity⟩ mon.emotional_events
  let m := update_emotional_stability mon.metrics t intensity
  let m := check_emotional_instability events m
  { mon with metrics := m, emotional_events := events }

/-- `MentalHealthMonitor.should_intervene`, with the wall-clock cooldown
test supplied as the boolean `cooldownElapsed`. -/
def should_intervene (mon : Monitor) (cooldownElapsed : Bool) : Bool :=
  cooldownElapsed &&
    (decide (mon.metrics.stress_level > 8/10)
      || decide (mon.metrics.excitement_level > 9/10)
      || decide (mon.metrics.recursive_loop_count ≥ 3)
      || decide (mon.metrics.addictive_behavior_score > 7/10)
      || decide (mon.metrics.burnout_risk > 8/10)
      || decide (mon.metrics.emotional_stability < 3/10))

end Monitor

/-- Maturity profile (`models.MaturityProfile`). -/
structure MaturityProfile where
  level : MaturityLevel
  age_months : ℕ
  experience_points : ℤ
  confidence_threshold : ℚ
  supervision_level : ℚ
  risk_tolerance : ℚ
  exploration_rate : ℚ
  learning_rate : ℚ
deriving DecidableEq, Repr

/-- One row of `MaturityTracker.MATURITY_CONFIGS` (the upper bound of
`age_range` is never read; only the minimum age is used). -/
structure MaturityConfig where
  age_min : ℕ
  confidence_threshold : ℚ
  supervision_level : ℚ
  risk_tolerance : ℚ
  exploration_rate : ℚ
  learning_rate : ℚ
  max_complexity : ℚ
  max_urgency : ℚ
  required_approval : Bool
  fallback_plans : ℕ
  recursive_loop_threshold : ℕ
  addictive_behavior_threshold : ℚ
deriving DecidableEq, Repr

/-- `MaturityTracker.MATURITY_CONFIGS`. -/
def MATURITY_CONFIGS : MaturityLevel → MaturityConfig
  | .infant =>
      { age_min := 0, confidence_threshold := 9/10, supervision_level := 95/100,
        risk_tolerance := 1/10, exploration_rate := 1/10, learning_rate := 8/10,
        max_complexity := 3/10, max_urgency := 1/2, required_approval := true,
        fallback_plans := 3, recursive_loop_threshold := 2,
        addictive_behavior_threshold := 3/10 }
  | .child =>
      { age_min := 6, confidence_threshold := 8/10, supervision_level := 7/10,
        risk_tolerance := 3/10, exploration_rate := 3/10, learning_rate := 7/10,
        max_complexity := 6/10, max_urgency := 7/10, required_approval := true,
        fallback_plans := 2, recursive_loop_threshold := 3,
        addictive_behavior_threshold := 4/10 }
  | .adolescent =>
      { age_min := 18, confidence_threshold := 7/10, supervision_level := 4/10,
        risk_tolerance := 1/2, exploration_rate := 1/2, learning_rate := 6/10,
        max_complexity := 8/10, max_urgency := 8/10, required_approval := false,
        fallback_plans := 1, recursive_loop_threshold := 4,
        addictive_behavior_threshold := 1/2 }
  | .adult =>
      { age_min := 36, confidence_threshold := 6/10, supervision_level := 1/10,
        risk_tolerance := 7/10, exploration_rate := 7/10, learning_rate := 1/2,
        max_complexity := 1, max_urgency := 1, required_approval := false,
        fallback_plans := 1, recursive_loop_threshold := 5,
        addictive_behavior_threshold := 6/10 }

/-- A decision-history entry of the Maturity Tracker; the readiness
check reads only `d.get("success_rate", 0)`, which is absent from the
decision dicts the Orientation records (`none`). -/
structure DecRecord where
  success_rate : Option ℚ
deriving DecidableEq, Repr

/-- The outcome fields of a learning event that
`_calculate_experience_gain` reads (`"quality"` / `"complexity"` keys,
absent unless supplied). -/
structure Outcome where
  quality : Option ℚ
  complexity : Option ℚ
deriving DecidableEq, Repr

/-- `MaturityTracker` state.  `learning_events` keeps the event-type
names (the other entries of the event dicts are never read back). -/
structure Tracker where
  profile : MaturityProfile
  mental_health : MentalHealthMetrics
  decision_history : List DecRecord
  learning_events : List String
deriving DecidableEq, Repr

namespace Tracker

/-- Python `int()` truncation toward zero of a rational. -/
def ratTrunc (q : ℚ) : ℤ := q.num / (q.den : ℤ)

/-- The `base_points` table of `_calculate_experience_gain`
(`dict.get(event_type, 1)`). -/
def basePoints (t : String) : ℤ :=
  if t = "successful_decision" then 10
  else if t = "failed_decision" then 5
  else if t = "complex_task" then 15
  else if t = "safety_violation" then 2
  else if t = "mental_health_intervention" then 3
  else if t = "recursive_loop_detected" then 1
  else if t = "addictive_behavior_detected" then 1
  else 1

/-- `MaturityTracker._calculate_experience_gain`. -/
def calculate_experience_gain (t : String) (o : Outcome) : ℤ :=
  let points : ℤ := basePoints t
  let points : ℤ := match o.quality with
    | some q => ratTrunc ((points : ℚ) * q)
    | none => points
  let points : ℤ := match o.complexity with
    | some c => ratTrunc ((points : ℚ) * (1 + c))
    | none => points
  max 1 points

/-- `MaturityTracker._get_next_level`. -/
def nextLevel : MaturityLevel → Option MaturityLevel
  | .infant => some .child
  | .child => some .adolescent
  | .adolescent => some .adult
  | .adult => none

/-- Whether a recorded decision counts toward readiness
(`d.get("success_rate", 0) > 0.8`). -/
def qualifies (d : DecRecord) : Bool :=
  match d.success_rate with
  | some r => decide (r > 8/10)
  | none => false

/-- `MaturityTracker._is_ready_for_next_level`. -/
def isReady (next : MaturityLevel) (s : Tracker) : Bool :=
  let cfg := MATURITY_CONFIGS next
  decide (s.profile.age_months ≥ cfg.age_min)
    && decide (s.profile.experience_points ≥ (cfg.age_min : ℤ) * 100)
    && decide (s.mental_health.status = .stable)
    && ! (decide (s.mental_health.stress_level > 7/10)
          || decide (s.mental_health.burnout_risk > 1/2))
    && decide (((takeLast 50 s.decision_history).filter qualifies).length ≥ 30)

/-- Append a learning event and award its experience points (the
non-recursive prefix of `record_learning_event`). -/
def applyEvent (t : String) (o : Outcome) (s : Tracker) : Tracker :=
  { s with
    learning_events := s.learning_events ++ [t],
    profile := { s.profile with
      experience_points := s.profile.experience_points + calculate_experience_gain t o } }

/-- The profile replacement performed by `_progress_to_level`: the level
and all five derived parameters are swapped to the new level's
configuration-table values. -/
def progressSet (next : MaturityLevel) (s : Tracker) : Tracker :=
  let cfg := MATURITY_CONFIGS next
  { s with profile := { s.profile with
      level := next,
      confidence_threshold := cfg.confidence_threshold,
      supervision_level := cfg.supervision_level,
      risk_tolerance := cfg.risk_tolerance,
      exploration_rate := cfg.exploration_rate,
      learning_rate := cfg.learning_rate } }

/-- `MaturityTracker._assess_maturity_progression`, with the mutual
recursion through `_progress_to_level` / `record_learning_event`
unfolded into fuel-bounded iteration.  Each progression strictly raises
the level and `nextLevel adult = none`, so fuel 3 reproduces the Python
recursion exactly.  The progression learning event
(`"maturity_progression"`, outcome without quality/complexity keys)
awards its experience inside the loop. -/
def assessProgression : ℕ → Tracker → Tracker
  | 0, s => s
  | n + 1, s =>
      match nextLevel s.profile.level with
      | none => s
      | some nxt =>
          if isReady nxt s then
            assessProgression n
              (applyEvent "maturity_progression" ⟨none, none⟩ (progressSet nxt s))
          else s

/-- `MaturityTracker.record_learning_event`. -/
def record_learning_event (s : Tracker) (t : String) (o : Outcome) : Tracker :=
  assessProgression 3 (applyEvent t o s)

/-- `MaturityTracker.record_decision`. -/
def record_decision (s : Tracker) (d : DecRecord) : Tracker :=
  assessProgression 3 { s with decision_history := s.decision_history ++ [d] }

/-- The state mutation of `_intervene_recursive_loop`: reset the loop
counter and raise supervision by 0.2 capped at 1.0. -/
def recLoopTweak (s : Tracker) : Tracker :=
  { s with
    mental_health := { s.mental_health with recursive_loop_count := 0 },
    profile := { s.profile with
      supervision_level := min 1 (s.profile.supervision_level + 2/10) } }

/-- `MaturityTracker._intervene_recursive_loop`. -/
def intervene_recursive_loop (s : Tracker) : Tracker :=
  record_learning_event (recLoopTweak s) "recursive_loop_intervention" ⟨none, none⟩

/-- The state mutation of `_intervene_addictive_behavior`: reset the
score and raise impulse control by 0.1 capped at 1.0. -/
def addictiveTweak (s : Tracker) : Tracker :=
  { s with
    mental_health := { s.mental_health with
      addictive_behavior_score := 0,
      impulse_control_score := min 1 (s.mental_health.impulse_control_score + 1/10) } }

/-- `MaturityTracker._intervene_addictive_behavior`. -/
def intervene_addictive_behavior (s : Tracker) : Tracker :=
  record_learning_event (addictiveTweak s) "addictive_behavior_intervention" ⟨none, none⟩

/-- The state mutation of `_intervene_burnout`: reduce stress and
burnout by 0.3 each (floored at 0) and raise emotional stability by 0.1
(capped at 1). -/
def burnoutTweak (s : Tracker) : Tracker :=
  { s with
    mental_health := { s.mental_health with
      stress_level := max 0 (s.mental_health.stress_level - 3/10),
      burnout_risk := max 0 (s.mental_health.burnout_risk - 3/10),
      emotional_stability := min 1 (s.mental_health.emotional_stability + 1/10) } }

/-- `MaturityTracker._intervene_burnout`. -/
def intervene_burnout (s : Tracker) : Tracker :=
  record_learning_event (burnoutTweak s) "burnout_intervention" ⟨none, none⟩

/-- The recursive-loop check of `_check_mental_health_interventions`
(`cfg` is the configuration snapshot taken at entry). -/
def checkRecursiveStage (cfg : MaturityConfig) (s : Tracker) : Tracker :=
  if s.mental_health.recursive_loop_count ≥ cfg.recursive_loop_threshold then
    intervene_recursive_loop s else s

/-- The addictive-behavior check of `_check_mental_health_interventions`. -/
def checkAddictiveStage (cfg : MaturityConfig) (s : Tracker) : Tracker :=
  if s.mental_health.addictive_behavior_score ≥ cfg.addictive_behavior_threshold then
    intervene_addictive_behavior s else s

/-- The burnout check of `_check_mental_health_interventions`. -/
def checkBurnoutStage (s : Tracker) : Tracker :=
  if s.mental_health.burnout_risk > 8/10 then intervene_burnout s else s

/-- `MaturityTracker.update_mental_health` followed by
`_check_mental_health_interventions`: the three checks run in order on
the current state.  Note: the source snapshots
`config = self.get_current_config()` once at entry, so all three
threshold tests use the entry level's configuration. -/
def update_mental_health (s : Tracker) (m : MentalHealthMetrics) : Tracker :=
  let s := { s with mental_health := m }
  let cfg := MATURITY_CONFIGS s.profile.level
  checkBurnoutStage (checkAddictiveStage cfg (checkRecursiveStage cfg s))

/-- The three public mutating operations of the Maturity Tracker. -/
inductive Op where
  | recordDecision (d : DecRecord)
  | recordLearningEvent (t : String) (o : Outcome)
  | updateMentalHealth (m : MentalHealthMetrics)

/-- Apply one tracker operation. -/
def applyOp (s : Tracker) : Op → Tracker
  | .recordDecision d => record_decision s d
  | .recordLearningEvent t o => record_learning_event s t o
  | .updateMentalHealth m => update_mental_health s m

/-- Apply a sequence of tracker operations, oldest first. -/
def applyOps (s : Tracker) (ops : List Op) : Tracker :=
  ops.foldl applyOp s

/-- The five derived operating parameters of a profile. -/
def derivedParams (p : MaturityProfile) : ℚ × ℚ × ℚ × ℚ × ℚ :=
  (p.confidence_threshold, p.supervision_level, p.risk_tolerance,
   p.exploration_rate, p.learning_rate)

/-- The five derived parameters prescribed by the configuration table
for a level. -/
def configParams (l : MaturityLevel) : ℚ × ℚ × ℚ × ℚ × ℚ :=
  let cfg := MATURITY_CONFIGS l
  (cfg.confidence_threshold, cfg.supervision_level, cfg.risk_tolerance,
   cfg.exploration_rate, cfg.learning_rate)

end Tracker

/-- Substring containment on character lists (Python `pat in s`). -/
def containsList (pat : List Char) : List Char → Bool
  | [] => pat.isEmpty
  | c :: t => pat.isPrefixOf (c :: t) || containsList pat t

/-- Python `pat in s` on strings. -/
def strContains (s pat : String) : Bool := containsList pat.data s.data

/-- Zero-pad a digit string on the left to width `w`. -/
def padZeros (w : ℕ) (s : String) : String :=
  String.mk (List.replicate (w - s.length) '0') ++ s

/-- Python `f"{x:.{digits}f}"` on a rational.  Python rounds the binary
double half-to-even; the embedding rounds half away from zero, which
agrees on every input whose scaled value is not an exact half — in
particular on all the concrete decimals used in this development. -/
def fmtFixed (digits : ℕ) (q : ℚ) : String :=
  let p : ℕ := 10 ^ digits
  let n : ℤ := round (q * (p : ℚ))
  let sign := if n < 0 then "-" else ""
  let m := n.natAbs
  sign ++ toString (m / p) ++ "." ++ padZeros digits (toString (m % p))

/-- A decision request as read by the core (`models.DecisionRequest`);
the free-form `constraints` map is only read for a `time_limit` that
never influences any modelled output and is omitted. -/
structure DecisionRequest where
  goal : String
  context : Ctx
  urgency : ℚ
  complexity : ℚ
  personality : Option PersonalityInfluence
deriving Repr

/-- A decision response (`models.DecisionResponse`).  The `plan_id` /
`trace_id` fields are freshly generated UUIDs and carry no checkable
content; they are omitted. -/
structure DecisionResponse where
  confidence : ℚ
  mental_health_status : MentalHealthStatus
  maturity_level : MaturityLevel
  warnings : List String
  recommendations : List String
deriving Repr

namespace Orientation

/-- `Orientation._classify_goal_type`: ordered keyword rules over the
lower-cased goal text, `tool` as the fallback. -/
def classify_goal_type (goal : String) : GoalType :=
  let g := goal.toLower
  if ["answer", "what", "how", "why"].any (fun w => strContains g w) then .answer
  else if ["find", "search", "retrieve", "get"].any (fun w => strContains g w) then .retrieve
  else if ["create", "generate", "make", "build"].any (fun w => strContains g w) then .create
  else if ["analyze", "examine", "study", "investigate"].any (fun w => strContains g w) then
    .analyze
  else if ["plan", "strategy", "approach"].any (fun w => strContains g w) then .plan
  else .tool

/-- The complexity estimate of `Orientation._analyze_goal`. -/
def analyze_goal_complexity (goal : String) (ctx : Ctx) : ℚ :=
  let g := goal.toLower
  let c : ℚ := 1/2
  let c := if strContains g "analyze" || strContains g "complex" then c + 2/10 else c
  let c := if strContains g "create" || strContains g "generate" then c + 15/100 else c
  let c := if strContains g "plan" || strContains g "strategy" then c + 1/10 else c
  let c := if ctx.requires_external_data then c + 1/10 else c
  let c := if ctx.requires_multiple_steps then c + 15/100 else c
  let c := if ctx.time_sensitive then c + 1/10 else c
  min 1 c

/-- The step list built by `Orientation._create_plan`: step `i` has type
`"llm"` for even `i` and `"tool"` for odd `i`; no step's repr mentions
`"data"`. -/
def mkSteps (n : ℕ) : List Step :=
  (List.range n).map (fun i => ⟨if i % 2 = 0 then .llm else .tool, false⟩)

/-- A plan built by `Orientation._create_plan`. -/
def mkPlan (gt : GoalType) (steps : ℕ) (quality risk spend : ℚ) : ActionPlan :=
  { goalType := gt, steps := mkSteps steps,
    estimates := ⟨quality, risk, spend⟩, policies := ["no_pii_exfil"] }

/-- `Orientation._generate_candidate_plans`: the fixed
conservative/balanced templates, plus the aggressive template at
adolescent or adult maturity. -/
def generate_candidate_plans (level : MaturityLevel) (gt : GoalType) : List ActionPlan :=
  [mkPlan gt 3 (8/10) (2/10) (6/10), mkPlan gt 5 (7/10) (4/10) (8/10)]
    ++ (if level = .adolescent ∨ level = .adult then
          [mkPlan gt 7 (6/10) (6/10) 1] else [])

/-- `Orientation._calculate_goal_satisfaction` — the Plan phase's
in-line goal-satisfaction heuristic (distinct from the Utility
Engine's). -/
def calculate_goal_satisfaction (plan : ActionPlan) (gt : GoalType) : ℚ :=
  match gt with
  | .answer => min 1 (plan.estimates.quality * (12/10))
  | .retrieve => min 1 (plan.estimates.quality * (11/10))
  | .create => min 1 (plan.estimates.quality * (9/10))
  | _ => plan.estimates.quality

/-- `Orientation._get_utility_weights`: the in-line maturity weight
table of the Plan phase. -/
def get_utility_weights : MaturityLevel → Weights
  | .infant => ⟨4/10, 3/10, 2/10, 1/10⟩
  | .child => ⟨35/100, 3/10, 2/10, 15/100⟩
  | .adolescent => ⟨3/10, 3/10, 2/10, 2/10⟩
  | .adult => ⟨25/100, 3/10, 2/10, 25/100⟩

/-- A scored candidate (`{"plan": ..., "utility_score": ...}`). -/
structure Scored where
  plan : ActionPlan
  utility_score : ℚ
deriving DecidableEq, Repr

/-- The in-line utility of the Plan phase:
`w_g·G + w_q·Q − w_r·R − w_s·S` over the raw estimates, unclamped. -/
def inlineUtility (level : MaturityLevel) (gt : GoalType) (plan : ActionPlan) : ℚ :=
  let w := get_utility_weights level
  w.goal * calculate_goal_satisfaction plan gt
    + w.quality * plan.estimates.quality
    - w.risk * plan.estimates.risk
    - w.spend * plan.estimates.spend

/-- Stable insertion for descending sort: a new element goes after all
already-placed elements with a score ≥ its own (matching the stability
of Python's `list.sort(..., reverse=True)`). -/
def insertDesc (x : Scored) : List Scored → List Scored
  | [] => [x]
  | y :: ys => if y.utility_score ≥ x.utility_score then y :: insertDesc x ys
               else x :: y :: ys

/-- Stable descending sort by utility score. -/
def sortDesc (l : List Scored) : List Scored :=
  l.foldl (fun acc x => insertDesc x acc) []

/-- `Orientation._score_plans`: score every candidate with the in-line
utility and sort descending. -/
def score_plans (level : MaturityLevel) (gt : GoalType) (plans : List ActionPlan) :
    List Scored :=
  sortDesc (plans.map (fun p => ⟨p, inlineUtility level gt p⟩))

/-- Result of `Orientation._select_best_plan`. -/
structure Selected where
  plan : ActionPlan
  confidence : ℚ
  warnings : List String
deriving Repr

/-- `Orientation._select_best_plan`: the head of the sorted list; the
`none` case models the `ValueError` the source raises on an empty
list. -/
def select_best_plan (scored : List Scored) (required : ℚ) : Option Selected :=
  match scored with
  | [] => none
  | best :: _ =>
      some { plan := best.plan, confidence := best.utility_score,
             warnings :=
               if best.utility_score < required then
                 ["Low confidence (" ++ fmtFixed 3 best.utility_score ++ " < "
                   ++ fmtFixed 3 required ++ ")"]
               else [] }

/-- `Orientation._prepare_fallback_plans`: `scored_plans[1:fallback_count]`
when the maturity-derived count exceeds 1. -/
def prepare_fallback_plans (level : MaturityLevel) (scored : List Scored) :
    List ActionPlan :=
  let fc := (MATURITY_CONFIGS level).fallback_plans
  if fc ≤ 1 then []
  else ((scored.drop 1).take (fc - 1)).map (fun s => s.plan)

/-- Result of `Orientation._validate_plan`. -/
structure ValidationResult where
  valid : Bool
  issues : List String
deriving DecidableEq, Repr

/-- `Orientation._validate_plan`. -/
def validate_plan (plan : ActionPlan) : ValidationResult :=
  let noSteps := plan.steps.isEmpty
  let riskHigh := decide (plan.estimates.risk > 9/10)
  let qualityLow := decide (plan.estimates.quality < 3/10)
  { valid := !noSteps && !riskHigh && !qualityLow,
    issues := (if noSteps then ["No steps defined"] else [])
      ++ (if riskHigh then ["Risk too high"] else [])
      ++ (if qualityLow then ["Quality too low"] else []) }

/-- Result of `Orientation._allocate_resources`. -/
structure AllocationResult where
  allocated : Bool
  tokens : ℚ
  time_seconds : ℚ
  compute_gpu : ℚ
deriving DecidableEq, Repr

/-- `Orientation._allocate_resources`: always allocates, proportional
to the spend estimate. -/
def allocate_resources (plan : ActionPlan) : AllocationResult :=
  { allocated := true,
    tokens := plan.estimates.spend * 2000,
    time_seconds := plan.estimates.spend * 60,
    compute_gpu := plan.estimates.spend * (2/10) }

/-- Result of `Orientation._perform_safety_checks`. -/
structure SafetyResult where
  safe : Bool
  warnings : List String
deriving DecidableEq, Repr

/-- `Orientation._perform_safety_checks`: never blocks; a risk estimate
above 0.7 only appends a warning. -/
def perform_safety_checks (plan : ActionPlan) : SafetyResult :=
  { safe := true,
    warnings := if plan.estimates.risk > 7/10 then
        ["High-risk plan requires additional review"] else [] }

/-- The execution context assembled by `Orientation._act`. -/
structure ActResult where
  validation : ValidationResult
  allocation : AllocationResult
  safety : SafetyResult
  ready_for_execution : Bool
deriving DecidableEq, Repr

/-- `Orientation._act`. -/
def act (plan : ActionPlan) : ActResult :=
  let v := validate_plan plan
  let a := allocate_resources plan
  let s := perform_safety_checks plan
  { validation := v, allocation := a, safety := s,
    ready_for_execution := v.valid && a.allocated && s.safe }

/-- `MentalHealthMonitor.get_intervention_recommendations` (a pure
function of the status). -/
def intervention_recommendations : MentalHealthStatus → List String
  | .stressed =>
      ["Reduce task complexity", "Increase planning time",
       "Take breaks between decisions", "Use simpler decision strategies"]
  | .excited =>
      ["Implement cooling-off periods", "Add validation steps",
       "Review decisions before execution", "Reduce novelty-seeking behavior"]
  | .recursive =>
      ["Break circular thought patterns", "Introduce external constraints",
       "Use different problem-solving approaches",
       "Implement thought termination techniques"]
  | .addictive =>
      ["Reduce validation-seeking behavior", "Focus on intrinsic motivation",
       "Implement delayed gratification", "Diversify goal types"]
  | .overwhelmed =>
      ["Reduce workload", "Implement stress management techniques",
       "Increase supervision and support", "Focus on simpler tasks"]
  | .stable => []

/-- `Orientation._generate_learning_recommendations`.  `senseStatus` is
the mental-health status snapshot taken in the Sense phase;
`monitorAfter` / `levelAfter` are the post-Learn states the source reads
at this point. -/
def generate_learning_recommendations (senseStatus : MentalHealthStatus)
    (monitorAfter : Monitor) (levelAfter : MaturityLevel) (confidence : ℚ) :
    List String :=
  (if senseStatus ≠ .stable then
      intervention_recommendations monitorAfter.metrics.status else [])
    ++ (if levelAfter = .infant then
          ["Consider simpler approaches for complex tasks"] else [])
    ++ (if confidence < 7/10 then
          ["Consider gathering more information before deciding"] else [])

/-- The `_create_fallback_response` of the top-level `except` branch. -/
def fallback_response (tracker : Tracker) (monitor : Monitor) (error : String) :
    DecisionResponse :=
  { confidence := 1/10,
    mental_health_status := monitor.metrics.status,
    maturity_level := tracker.profile.level,
    warnings := ["SEPA cycle failed: " ++ error],
    recommendations := ["Use simpler approach", "Request human assistance"] }

/-- Result of one full Orientation cycle: the response plus the updated
tracker and monitor states. -/
structure ProcessResult where
  response : DecisionResponse
  tracker : Tracker
  monitor : Monitor

/-- `Orientation.process_request`: the full Sense → Evaluate → Plan →
Act → Learn cycle.  `failure = some e` models an unexpected exception
`e` raised inside the `try` block, which the source converts to the
fixed fallback response without mutating any state. -/
def process_request (tracker : Tracker) (monitor : Monitor)
    (request : DecisionRequest) (failure : Option String) : ProcessResult :=
  match failure with
  | some e => ⟨fallback_response tracker monitor e, tracker, monitor⟩
  | none =>
      let gt := classify_goal_type request.goal
      let complexityScore := analyze_goal_complexity request.goal request.context
      let senseStatus := monitor.metrics.status
      let plans := generate_candidate_plans tracker.profile.level gt
      let scored := score_plans tracker.profile.level gt plans
      match select_best_plan scored tracker.profile.confidence_threshold with
      | none =>
          ⟨fallback_response tracker monitor "No plans available for selection",
           tracker, monitor⟩
      | some best =>
          let tracker1 := Tracker.record_decision tracker ⟨none⟩
          let mhd : MHDecision :=
            { complexity := complexityScore, urgency := request.urgency,
              success := true, confidence := best.confidence,
              validationSeeking := false, planning_time := 0 }
          let monitor1 := Monitor.update_from_decision monitor mhd
          let tracker2 := Tracker.update_mental_health tracker1 monitor1.metrics
          let recs := generate_learning_recommendations senseStatus monitor1
            tracker2.profile.level best.confidence
          ⟨{ confidence := best.confidence,
             mental_health_status := monitor1.metrics.status,
             maturity_level := tracker2.profile.level,
             warnings := best.warnings,
             recommendations := recs }, tracker2, monitor1⟩

end Orientation

namespace DecisionEngine

/-- `DecisionEngine` state: the two owned components plus the boolean
outcome of the wall-clock cooldown test of `should_intervene`. -/
structure Engine where
  tracker : Tracker
  monitor : Monitor
  cooldownElapsed : Bool

/-- The complexity reason string of `DecisionEngine._validate_request`. -/
def complexityReason (c : ℚ) (level : MaturityLevel) : String :=
  "Complexity " ++ fmtFixed 2 c ++ " exceeds maturity level " ++ level.value

/-- The urgency reason string of `DecisionEngine._validate_request`. -/
def urgencyReason (u : ℚ) (level : MaturityLevel) : String :=
  "Urgency " ++ fmtFixed 2 u ++ " exceeds maturity level " ++ level.value

/-- `DecisionEngine._validate_request`: the collected reasons; the
request is valid iff the list is empty. -/
def validate_request (e : Engine) (req : DecisionRequest) : List String :=
  let cfg := MATURITY_CONFIGS e.tracker.profile.level
  (if ¬ (req.complexity ≤ cfg.max_complexity) then
      [complexityReason req.complexity e.tracker.profile.level] else [])
    ++ (if ¬ (req.urgency ≤ cfg.max_urgency) then
          [urgencyReason req.urgency e.tracker.profile.level] else [])
    ++ (if e.monitor.metrics.status = .overwhelmed then
          ["Mental health status is overwhelmed"] else [])
    ++ (if e.monitor.metrics.recursive_loop_count ≥ 3 then
          ["Too many recursive loops detected"] else [])

/-- `DecisionEngine._create_constraint_violation_response`. -/
def constraint_violation_response (e : Engine) (reasons : List String) :
    DecisionResponse :=
  { confidence := 0,
    mental_health_status := e.monitor.metrics.status,
    maturity_level := e.tracker.profile.level,
    warnings := reasons,
    recommendations := ["Reduce complexity or urgency",
      "Wait for mental health to stabilize", "Request human assistance"] }

/-- `DecisionEngine._create_mental_health_intervention_response`. -/
def intervention_response (e : Engine) : DecisionResponse :=
  { confidence := 0,
    mental_health_status := e.monitor.metrics.status,
    maturity_level := e.tracker.profile.level,
    warnings := ["Mental health intervention required"],
    recommendations := Orientation.intervention_recommendations e.monitor.metrics.status }

/-- `DecisionEngine._create_error_response`. -/
def error_response (e : Engine) (error : String) : DecisionResponse :=
  { confidence := 0,
    mental_health_status := e.monitor.metrics.status,
    maturity_level := e.tracker.profile.level,
    warnings := ["Decision engine error: " ++ error],
    recommendations := ["Retry with simpler request", "Check system status",
      "Request human assistance"] }

/-- `DecisionEngine.decide`.  Request construction re-runs the pydantic
range validators on `urgency`/`complexity` (a failure is caught by the
surrounding `try` and becomes the error response); `failure` is the
exception oracle forwarded to the Orientation cycle. -/
def decide (e : Engine) (goal : String) (ctx : Ctx) (urgency complexity : ℚ)
    (pers : Option PersonalityInfluence) (failure : Option String) :
    DecisionResponse × Engine :=
  if ¬ (0 ≤ urgency ∧ urgency ≤ 1 ∧ 0 ≤ complexity ∧ complexity ≤ 1) then
    (error_response e "Level must be between 0 and 1", e)
  else
    let req : DecisionRequest :=
      { goal := goal, context := ctx, urgency := urgency, complexity := complexity,
        personality := pers.orElse (fun _ => e.monitor.personality) }
    let reasons := validate_request e req
    if reasons ≠ [] then
      (constraint_violation_response e reasons, e)
    else if Monitor.should_intervene e.monitor e.cooldownElapsed then
      (intervention_response e, e)
    else
      let pr := Orientation.process_request e.tracker e.monitor req failure
      (pr.response, { e with tracker := pr.tracker, monitor := pr.monitor })

end DecisionEngine

/-- The default profile of `MaturityTracker._load_profile`. -/
def initialProfile : MaturityProfile :=
  { level := .infant, age_months := 0, experience_points := 0,
    confidence_threshold := 9/10, supervision_level := 95/100,
    risk_tolerance := 1/10, exploration_rate := 1/10, learning_rate := 8/10 }

/-- A freshly initialised `MaturityTracker`. -/
def initialTracker : Tracker :=
  { profile := initialProfile, mental_health := initialMetrics,
    decision_history := [], learning_events := [] }

/-- A freshly initialised `MentalHealthMonitor`. -/
def initialMonitor (pers : Option PersonalityInfluence) : Monitor :=
  { metrics := initialMetrics, decision_history := [], thought_patterns := [],
    emotional_events := [], personality := pers }

/-! ## Supporting lemmas -/

namespace UtilityEngine

theorem tilt_weights_pos (w : Weights) (p : PersonalityInfluence)
    (hg : 0 < w.goal) (hq : 0 < w.quality) (hr : 0 < w.risk) (hs : 0 < w.spend) :
    0 < (tilt_weights w p).goal ∧ 0 < (tilt_weights w p).quality ∧
      0 < (tilt_weights w p).risk ∧ 0 < (tilt_weights w p).spend := by
  unfold tilt_weights
  split_ifs <;>
    exact ⟨by dsimp only; positivity, by dsimp only; positivity,
           by dsimp only; positivity, by dsimp only; positivity⟩

theorem maturity_weights_pos (level : MaturityLevel) :
    0 < (maturity_weights level).goal ∧ 0 < (maturity_weights level).quality ∧
      0 < (maturity_weights level).risk ∧ 0 < (maturity_weights level).spend := by
  cases level <;> exact ⟨by norm_num [maturity_weights], by norm_num [maturity_weights],
    by norm_num [maturity_weights], by norm_num [maturity_weights]⟩

theorem calculate_quality_eq_seventy_percent_base (plan : ActionPlan) :
    calculate_quality plan = min 1 ((7/10) * plan.estimates.quality) := by
  unfold calculate_quality quality_heuristics quality_factors
  cases plan.goalType <;> simp [List.lookup, beq_iff_eq]

theorem adjust_weights_sum_one (w : Weights) (p : PersonalityInfluence)
    (hg : 0 < w.goal) (hq : 0 < w.quality) (hr : 0 < w.risk) (hs : 0 < w.spend) :
    (adjust_weights_for_personality w p).goal + (adjust_weights_for_personality w p).quality
      + (adjust_weights_for_personality w p).risk
      + (adjust_weights_for_personality w p).spend = 1 := by
  obtain ⟨tg, tq, tr, ts⟩ := tilt_weights_pos w p hg hq hr hs
  unfold adjust_weights_for_personality
  have htot : (tilt_weights w p).goal + (tilt_weights w p).quality
      + (tilt_weights w p).risk + (tilt_weights w p).spend > 0 := by linarith
  dsimp only
  field_simp

end UtilityEngine

namespace Orientation

theorem mem_insertDesc (x a : Scored) (l : List Scored) :
    a ∈ insertDesc x l ↔ a = x ∨ a ∈ l := by
  induction l with
  | nil => simp [insertDesc]
  | cons y ys ih =>
      unfold insertDesc
      split_ifs <;> (simp [ih]; try tauto)

theorem mem_foldl_insertDesc (l : List Scored) (acc : List Scored) (a : Scored) :
    a ∈ l.foldl (fun acc x => insertDesc x acc) acc ↔ a ∈ acc ∨ a ∈ l := by
  induction l generalizing acc with
  | nil => simp
  | cons x xs ih =>
      simp only [List.foldl_cons, ih, mem_insertDesc, List.mem_cons]
      tauto

theorem mem_sortDesc (l : List Scored) (a : Scored) : a ∈ sortDesc l ↔ a ∈ l := by
  unfold sortDesc
  rw [mem_foldl_insertDesc]
  simp

end Orientation

/-! ## Claim theorems -/

/-- C6: For every plan, maturity level, optional personality and
optional context, `UtilityEngine.calculate_utility` returns the
weighted sum `w_g·G + w_q·Q − w_r·R − w_s·S` clamped to `[0,1]` (hence
always in `[0,1]`), where the weight vector is the fixed maturity-level
base table, multiplicatively tilted by personality-trait thresholds and
renormalized to sum to 1 whenever a personality is supplied. -/
theorem calculate_utility_weighted_sum_clamped
    (plan : ActionPlan) (level : MaturityLevel)
    (pers : Option PersonalityInfluence) (ctx : Option Ctx) :
    (UtilityEngine.calculate_utility plan level pers ctx).utility
      = clamp01 ((UtilityEngine.calculate_utility plan level pers ctx).weights.goal
            * (UtilityEngine.calculate_utility plan level pers ctx).G
          + (UtilityEngine.calculate_utility plan level pers ctx).weights.quality
            * (UtilityEngine.calculate_utility plan level pers ctx).Q
          - (UtilityEngine.calculate_utility plan level pers ctx).weights.risk
            * (UtilityEngine.calculate_utility plan level pers ctx).R
          - (UtilityEngine.calculate_utility plan level pers ctx).weights.spend
            * (UtilityEngine.calculate_utility plan level pers ctx).S)
    ∧ 0 ≤ (UtilityEngine.calculate_utility plan level pers ctx).utility
    ∧ (UtilityEngine.calculate_utility plan level pers ctx).utility ≤ 1
    ∧ (pers = none →
        (UtilityEngine.calculate_utility plan level pers ctx).weights
          = UtilityEngine.maturity_weights level)
    ∧ (∀ p, pers = some p →
        (UtilityEngine.calculate_utility plan level pers ctx).weights
            = UtilityEngine.adjust_weights_for_personality
                (UtilityEngine.maturity_weights level) p
          ∧ (UtilityEngine.calculate_utility plan level pers ctx).weights.goal
              + (UtilityEngine.calculate_utility plan level pers ctx).weights.quality
              + (UtilityEngine.calculate_utility plan level pers ctx).weights.risk
              + (UtilityEngine.calculate_utility plan level pers ctx).weights.spend = 1) := by
  refine ⟨rfl, le_max_left 0 _, max_le (by norm_num) (min_le_left 1 _), ?_, ?_⟩
  · intro h; subst h; rfl
  · intro p h; subst h
    obtain ⟨hg, hq, hr, hs⟩ := UtilityEngine.maturity_weights_pos level
    exact ⟨rfl, UtilityEngine.adjust_weights_sum_one _ p hg hq hr hs⟩

/-- Witness for C6 at a concrete plan, the infant level, an analytical
personality and no context: the renormalized weight vector sums to 1. -/
theorem calculate_utility_weighted_sum_clamped_witness :
    (UtilityEngine.calculate_utility (Orientation.mkPlan .answer 3 (8/10) (2/10) (6/10))
          .infant (some ⟨0, 0, 0, 9/10, 0⟩) none).weights.goal
      + (UtilityEngine.calculate_utility (Orientation.mkPlan .answer 3 (8/10) (2/10) (6/10))
          .infant (some ⟨0, 0, 0, 9/10, 0⟩) none).weights.quality
      + (UtilityEngine.calculate_utility (Orientation.mkPlan .answer 3 (8/10) (2/10) (6/10))
          .infant (some ⟨0, 0, 0, 9/10, 0⟩) none).weights.risk
      + (UtilityEngine.calculate_utility (Orientation.mkPlan .answer 3 (8/10) (2/10) (6/10))
          .infant (some ⟨0, 0, 0, 9/10, 0⟩) none).weights.spend = 1 :=
  ((calculate_utility_weighted_sum_clamped
      (Orientation.mkPlan .answer 3 (8/10) (2/10) (6/10)) .infant
      (some ⟨0, 0, 0, 9/10, 0⟩) none).2.2.2.2 ⟨0, 0, 0, 9/10, 0⟩ rfl).2

/-- C10: In the Act phase, resource allocation always reports
`allocated = True` and the safety check always reports `safe = True`
(risk above 0.7 only appends a warning), so `ready_for_execution`
equals the structural validation result alone: at least one step,
risk at most 0.9, quality at least 0.3. -/
theorem act_ready_equals_validation (plan : ActionPlan) :
    (Orientation.act plan).allocation.allocated = true
    ∧ (Orientation.act plan).safety.safe = true
    ∧ (Orientation.act plan).safety.warnings
        = (if plan.estimates.risk > 7/10 then
            ["High-risk plan requires additional review"] else [])
    ∧ ((Orientation.act plan).ready_for_execution = true ↔
        (plan.steps ≠ [] ∧ plan.estimates.risk ≤ 9/10 ∧ 3/10 ≤ plan.estimates.quality)) := by
  refine ⟨rfl, rfl, rfl, ?_⟩
  simp [Orientation.act, Orientation.validate_plan, Orientation.allocate_resources,
    Orientation.perform_safety_checks, List.isEmpty_iff, not_lt, and_assoc]

/-- C9 (amended): the Plan phase prepares
`min(N, number of candidates) − 1` fallbacks when the maturity-derived
count `N` is at least 2, and none when `N ≤ 1`; below adolescent only
two candidates are generated, so an infant engine prepares 1 fallback
(not `N − 1 = 2`), a child engine 1, adolescent and adult 0. -/
theorem prepare_fallback_plans_count (level : MaturityLevel) (gt : GoalType) :
    (Orientation.prepare_fallback_plans level
        (Orientation.score_plans level gt
          (Orientation.generate_candidate_plans level gt))).length
      = (if (MATURITY_CONFIGS level).fallback_plans ≤ 1 then 0
         else min (MATURITY_CONFIGS level).fallback_plans
                (Orientation.generate_candidate_plans level gt).length - 1) := by
  revert level gt; decide

/-- C9 counterexample: an infant-level cycle has fallback-plan count
`N = 3` but only two candidates, so exactly 1 fallback is prepared,
not `N − 1 = 2`. -/
theorem prepare_fallback_plans_infant_counterexample :
    (Orientation.prepare_fallback_plans .infant
        (Orientation.score_plans .infant .tool
          (Orientation.generate_candidate_plans .infant .tool))).length = 1
    ∧ (MATURITY_CONFIGS MaturityLevel.infant).fallback_plans - 1 = 2
    ∧ (1 : ℕ) ≠ 2 := by
  decide

/-- C3 (amended): the utility recorded for every candidate (and hence
the winner's confidence) equals the Plan phase's own in-line score —
base maturity weights, a goal-type scaling of the quality estimate as
G, and the raw plan estimates as Q, R, S, unclamped, without
personality or context — which in general differs from
`UtilityEngine.calculate_utility`. -/
theorem score_plans_use_inline_scorer :
    (∀ (level : MaturityLevel) (gt : GoalType) (plans : List ActionPlan),
      ∀ s ∈ Orientation.score_plans level gt plans,
        s.utility_score = Orientation.inlineUtility level gt s.plan)
    ∧ (∀ (level : MaturityLevel) (gt : GoalType) (plans : List ActionPlan)
        (req : ℚ) (sel : Orientation.Selected),
        Orientation.select_best_plan (Orientation.score_plans level gt plans) req
            = some sel →
          sel.confidence = Orientation.inlineUtility level gt sel.plan) := by
  have h1 : ∀ (level : MaturityLevel) (gt : GoalType) (plans : List ActionPlan),
      ∀ s ∈ Orientation.score_plans level gt plans,
        s.utility_score = Orientation.inlineUtility level gt s.plan := by
    intro level gt plans s hs
    rw [Orientation.score_plans, Orientation.mem_sortDesc, List.mem_map] at hs
    obtain ⟨p, _, rfl⟩ := hs
    rfl
  refine ⟨h1, ?_⟩
  intro level gt plans req sel hsel
  cases h : Orientation.score_plans level gt plans with
  | nil => rw [h] at hsel; exact absurd hsel (by simp [Orientation.select_best_plan])
  | cons b rest =>
      rw [h] at hsel
      simp only [Orientation.select_best_plan, Option.some.injEq] at hsel
      have hb : b ∈ Orientation.score_plans level gt plans := by
        rw [h]; exact List.mem_cons_self b rest
      have := h1 level gt plans b hb
      rw [← hsel]
      exact this

/-- Witness for C3's amended theorem: the infant/answer winner's
recorded confidence equals the in-line score of its plan. -/
theorem score_plans_use_inline_scorer_witness :
    (Orientation.Scored.mk (Orientation.mkPlan .answer 3 (8/10) (2/10) (6/10))
        (131/250)).utility_score
      = Orientation.inlineUtility .infant .answer
          (Orientation.Scored.mk (Orientation.mkPlan .answer 3 (8/10) (2/10) (6/10))
            (131/250)).plan :=
  score_plans_use_inline_scorer.1 .infant .answer
    (Orientation.generate_candidate_plans .infant .answer)
    ⟨Orientation.mkPlan .answer 3 (8/10) (2/10) (6/10), 131/250⟩ (by decide)

/-- C3 counterexample: on the infant-level `answer` cycle the winning
candidate (the conservative plan) is recorded with in-line utility
0.524, while `UtilityEngine.calculate_utility` on the same plan at the
same level returns 0.343 (its Q component collapses to 0.7·0.8 because
the quality-heuristics keys never match the factor names) — the
in-line scorer is not the Utility Engine. -/
theorem inline_scorer_differs_from_utility_engine :
    (Orientation.score_plans .infant .answer
        (Orientation.generate_candidate_plans .infant .answer)).head?
      = some ⟨Orientation.mkPlan .answer 3 (8/10) (2/10) (6/10), 131/250⟩
    ∧ (UtilityEngine.calculate_utility
        (Orientation.mkPlan .answer 3 (8/10) (2/10) (6/10)) .infant none none).utility
      = 343/1000
    ∧ ((131 : ℚ)/250) ≠ 343/1000 := by
  refine ⟨by decide, by decide, by norm_num⟩

namespace Monitor

theorem analyze_thought_pattern_status (m : MentalHealthMetrics) (p : ThoughtPattern) :
    (analyze_thought_pattern m p).status = m.status := by
  unfold analyze_thought_pattern
  split_ifs <;> rfl

theorem detect_recursive_loops_status (pats : List ThoughtPattern)
    (m : MentalHealthMetrics) : (detect_recursive_loops pats m).status = m.status := by
  unfold detect_recursive_loops
  split_ifs <;> rfl

theorem update_emotional_stability_status (m : MentalHealthMetrics) (t : EventType)
    (i : ℚ) : (update_emotional_stability m t i).status = m.status := rfl

theorem check_emotional_instability_status (events : List EmotionalEvent)
    (m : MentalHealthMetrics) : (check_emotional_instability events m).status = m.status := by
  unfold check_emotional_instability
  dsimp only
  split_ifs <;> rfl

theorem status_after_derive (m : MentalHealthMetrics) :
    ({ m with status := deriveStatus m } : MentalHealthMetrics).status
      = deriveStatus { m with status := deriveStatus m } := rfl

end Monitor

set_option maxRecDepth 8000 in
/-- C5 (amended): `metrics.status` equals the fixed priority derivation
over the numeric fields after every `update_from_decision` call (its
final step recomputes the status); `update_from_thought_pattern` and
`record_emotional_event` never touch the status field, so after those
operations the stored status can be stale with respect to the
derivation. -/
theorem mental_health_status_derivation :
    (∀ (mon : Monitor) (d : MHDecision),
      (Monitor.update_from_decision mon d).metrics.status
        = Monitor.deriveStatus (Monitor.update_from_decision mon d).metrics)
    ∧ (∀ (mon : Monitor) (p : ThoughtPattern),
      (Monitor.update_from_thought_pattern mon p).metrics.status = mon.metrics.status)
    ∧ (∀ (mon : Monitor) (t : EventType) (i : ℚ),
      (Monitor.record_emotional_event mon t i).metrics.status = mon.metrics.status) := by
  refine ⟨?_, ?_, ?_⟩
  · intro mon d
    unfold Monitor.update_from_decision
    dsimp only
    exact Monitor.status_after_derive _
  · intro mon p
    unfold Monitor.update_from_thought_pattern
    rw [Monitor.detect_recursive_loops_status, Monitor.analyze_thought_pattern_status]
  · intro mon t i
    unfold Monitor.record_emotional_event
    rw [Monitor.check_emotional_instability_status,
      Monitor.update_emotional_stability_status]

/-- C5 counterexample: three thought patterns with repetition count 4
and similarity 0.9 drive `recursive_loop_count` to 3, but the stored
status remains `stable` while the §4.4 derivation over the same numeric
fields yields `recursive` — so after `update_from_thought_pattern` the
status does not equal the fixed priority derivation. -/
theorem thought_pattern_status_stale_counterexample :
    (Monitor.update_from_thought_pattern
        (Monitor.update_from_thought_pattern
          (Monitor.update_from_thought_pattern (initialMonitor none)
            ⟨.other, 4, 9/10, [], []⟩)
          ⟨.other, 4, 9/10, [], []⟩)
        ⟨.other, 4, 9/10, [], []⟩).metrics.status = .stable
    ∧ Monitor.deriveStatus
        (Monitor.update_from_thought_pattern
          (Monitor.update_from_thought_pattern
            (Monitor.update_from_thought_pattern (initialMonitor none)
              ⟨.other, 4, 9/10, [], []⟩)
            ⟨.other, 4, 9/10, [], []⟩)
          ⟨.other, 4, 9/10, [], []⟩).metrics = .recursive
    ∧ MentalHealthStatus.stable ≠ MentalHealthStatus.recursive := by
  refine ⟨by decide, by decide, by decide⟩

/-- C7 (code bug evaluated on the failing input): the per-decision
stress/excitement decay is exactly 0.05 regardless of the personality's
`analytical` trait, because the source adjusts its local `decay_rate`
only after both subtractions have been applied.  Two monitors that
differ only in `analytical` (0.9 versus 0.2) end a decision update with
the identical stress level 0.45 — not the 0.44 (= 0.5 − 0.05·1.2) the
specified faster decay would give the analytical one. -/
theorem decay_independent_of_personality_failing_input :
    (Monitor.update_from_decision
        ⟨{ initialMetrics with stress_level := 1/2 }, [], [], [],
          some ⟨0, 0, 0, 9/10, 0⟩⟩
        ⟨0, 0, true, 1, false, 5⟩).metrics.stress_level = 45/100
    ∧ (Monitor.update_from_decision
        ⟨{ initialMetrics with stress_level := 1/2 }, [], [], [],
          some ⟨0, 0, 0, 2/10, 0⟩⟩
        ⟨0, 0, true, 1, false, 5⟩).metrics.stress_level = 45/100
    ∧ ((1:ℚ)/2 - (5/100) * (12/10)) ≠ 45/100 := by
  refine ⟨by decide, by decide, by decide⟩

namespace Orientation

theorem planHead_bounds (level : MaturityLevel) (gt : GoalType) :
    0 ≤ ((score_plans level gt (generate_candidate_plans level gt)).map
          (fun s => s.utility_score)).headD 0
    ∧ ((score_plans level gt (generate_candidate_plans level gt)).map
          (fun s => s.utility_score)).headD 0 ≤ 1 := by
  revert level gt; decide

theorem select_confidence_eq_head (l : List Scored) (req : ℚ) (sel : Selected)
    (h : select_best_plan l req = some sel) :
    sel.confidence = (l.map (fun s => s.utility_score)).headD 0 := by
  cases l with
  | nil => exact absurd h (by simp [select_best_plan])
  | cons b rest =>
      simp only [select_best_plan, Option.some.injEq] at h
      rw [← h]
      rfl

theorem process_request_confidence_bounds (tracker : Tracker) (monitor : Monitor)
    (req : DecisionRequest) (failure : Option String) :
    0 ≤ (process_request tracker monitor req failure).response.confidence
    ∧ (process_request tracker monitor req failure).response.confidence ≤ 1 := by
  unfold process_request
  cases failure with
  | some e => exact ⟨by norm_num [fallback_response], by norm_num [fallback_response]⟩
  | none =>
      dsimp only
      split
      · exact ⟨by norm_num [fallback_response], by norm_num [fallback_response]⟩
      · rename_i sel hsel
        dsimp only
        rw [select_confidence_eq_head _ _ _ hsel]
        exact planHead_bounds _ _

end Orientation

/-- C1: every decision request is answered with a well-formed
`DecisionResponse` whose confidence lies in `[0,1]` — both through
`DecisionEngine.decide` and through `Orientation.process_request` — and
no exception propagates (the embedding is total, and an internal phase
failure, modelled by the oracle, takes the fixed fallback branch). -/
theorem decision_response_confidence_bounds
    (e : DecisionEngine.Engine) (goal : String) (ctx : Ctx) (u c : ℚ)
    (pers : Option PersonalityInfluence) (failure : Option String)
    (tracker : Tracker) (monitor : Monitor) (req : DecisionRequest)
    (f2 : Option String) :
    (0 ≤ (DecisionEngine.decide e goal ctx u c pers failure).1.confidence
      ∧ (DecisionEngine.decide e goal ctx u c pers failure).1.confidence ≤ 1)
    ∧ (0 ≤ (Orientation.process_request tracker monitor req f2).response.confidence
      ∧ (Orientation.process_request tracker monitor req f2).response.confidence ≤ 1) := by
  refine ⟨?_, Orientation.process_request_confidence_bounds tracker monitor req f2⟩
  unfold DecisionEngine.decide
  dsimp only
  split_ifs
  · exact ⟨by norm_num [DecisionEngine.constraint_violation_response],
      by norm_num [DecisionEngine.constraint_violation_response]⟩
  · exact ⟨by norm_num [DecisionEngine.intervention_response],
      by norm_num [DecisionEngine.intervention_response]⟩
  · exact Orientation.process_request_confidence_bounds _ _ _ _
  · exact ⟨by norm_num [DecisionEngine.error_response],
      by norm_num [DecisionEngine.error_response]⟩

namespace DecisionEngine

theorem reason_split (a f v : String) :
    a ++ f ++ " exceeds maturity level " ++ v
      = (a ++ f ++ " ") ++ ("exceeds maturity level " ++ v) ++ "" := by
  rw [String.append_empty]
  have hlit : (" exceeds maturity level " : String) = " " ++ "exceeds maturity level " := by
    decide
  rw [hlit, ← String.append_assoc (a ++ f) " " "exceeds maturity level ",
    String.append_assoc (a ++ f ++ " ") "exceeds maturity level " v]

theorem validate_request_mem_complexity (e : Engine) (req : DecisionRequest)
    (h : ¬ (req.complexity ≤ (MATURITY_CONFIGS e.tracker.profile.level).max_complexity)) :
    complexityReason req.complexity e.tracker.profile.level ∈ validate_request e req := by
  unfold validate_request
  dsimp only
  rw [if_pos h]
  simp

theorem validate_request_mem_urgency (e : Engine) (req : DecisionRequest)
    (h : ¬ (req.urgency ≤ (MATURITY_CONFIGS e.tracker.profile.level).max_urgency)) :
    urgencyReason req.urgency e.tracker.profile.level ∈ validate_request e req := by
  unfold validate_request
  dsimp only
  rw [if_pos h]
  simp

end DecisionEngine

/-- C2: a request whose complexity or urgency exceeds the current
maturity level's ceiling is answered by `DecisionEngine.decide` with
confidence exactly 0 and a non-empty warnings list containing a warning
whose text includes "exceeds maturity level" followed by the level
name. -/
theorem exceed_ceiling_zero_confidence
    (e : DecisionEngine.Engine) (goal : String) (ctx : Ctx) (u c : ℚ)
    (pers : Option PersonalityInfluence) (failure : Option String)
    (hu0 : 0 ≤ u) (hu1 : u ≤ 1) (hc0 : 0 ≤ c) (hc1 : c ≤ 1)
    (hex : ¬ (c ≤ (MATURITY_CONFIGS e.tracker.profile.level).max_complexity)
         ∨ ¬ (u ≤ (MATURITY_CONFIGS e.tracker.profile.level).max_urgency)) :
    (DecisionEngine.decide e goal ctx u c pers failure).1.confidence = 0
    ∧ (DecisionEngine.decide e goal ctx u c pers failure).1.warnings ≠ []
    ∧ ∃ w ∈ (DecisionEngine.decide e goal ctx u c pers failure).1.warnings,
        ∃ pre post, w = pre ++ ("exceeds maturity level "
            ++ e.tracker.profile.level.value) ++ post := by
  have hrange : 0 ≤ u ∧ u ≤ 1 ∧ 0 ≤ c ∧ c ≤ 1 := ⟨hu0, hu1, hc0, hc1⟩
  unfold DecisionEngine.decide
  dsimp only
  rw [if_neg (not_not_intro hrange)]
  have hw : ∃ w ∈ DecisionEngine.validate_request e
      { goal := goal, context := ctx, urgency := u, complexity := c,
        personality := pers.orElse fun _ => e.monitor.personality },
      ∃ pre post, w = pre ++ ("exceeds maturity level "
          ++ e.tracker.profile.level.value) ++ post := by
    cases hex with
    | inl hc =>
        refine ⟨DecisionEngine.complexityReason c e.tracker.profile.level,
          DecisionEngine.validate_request_mem_complexity e _ hc,
          "Complexity " ++ fmtFixed 2 c ++ " ", "", ?_⟩
        exact DecisionEngine.reason_split "Complexity " (fmtFixed 2 c)
          e.tracker.profile.level.value
    | inr hu =>
        refine ⟨DecisionEngine.urgencyReason u e.tracker.profile.level,
          DecisionEngine.validate_request_mem_urgency e _ hu,
          "Urgency " ++ fmtFixed 2 u ++ " ", "", ?_⟩
        exact DecisionEngine.reason_split "Urgency " (fmtFixed 2 u)
          e.tracker.profile.level.value
  obtain ⟨w, hwmem, hdecomp⟩ := hw
  have hne : DecisionEngine.validate_request e
      { goal := goal, context := ctx, urgency := u, complexity := c,
        personality := pers.orElse fun _ => e.monitor.personality } ≠ [] :=
    List.ne_nil_of_mem hwmem
  rw [if_pos hne]
  exact ⟨rfl, hne, w, hwmem, hdecomp⟩

/-- Witness for C2: an infant-level engine given complexity 0.9 and
urgency 0.9 returns confidence 0 with a warning containing
"exceeds maturity level infant". -/
theorem exceed_ceiling_zero_confidence_witness :
    ¬ ((9:ℚ)/10 ≤ (MATURITY_CONFIGS initialTracker.profile.level).max_complexity)
    ∧ ((DecisionEngine.decide
          ⟨initialTracker, initialMonitor none, false⟩ "test goal"
          ⟨false, false, false, false, false⟩ (9/10) (9/10) none none).1.confidence = 0
      ∧ (DecisionEngine.decide
          ⟨initialTracker, initialMonitor none, false⟩ "test goal"
          ⟨false, false, false, false, false⟩ (9/10) (9/10) none none).1.warnings ≠ []
      ∧ ∃ w ∈ (DecisionEngine.decide
          ⟨initialTracker, initialMonitor none, false⟩ "test goal"
          ⟨false, false, false, false, false⟩ (9/10) (9/10) none none).1.warnings,
          ∃ pre post, w = pre ++ ("exceeds maturity level "
              ++ MaturityLevel.infant.value) ++ post) :=
  ⟨by decide,
   exceed_ceiling_zero_confidence ⟨initialTracker, initialMonitor none, false⟩
     "test goal" ⟨false, false, false, false, false⟩ (9/10) (9/10) none none
     (by norm_num) (by norm_num) (by norm_num) (by norm_num)
     (Or.inl (by decide))⟩

namespace Tracker

theorem applyEvent_level (t : String) (o : Outcome) (s : Tracker) :
    (applyEvent t o s).profile.level = s.profile.level := rfl

theorem applyEvent_params (t : String) (o : Outcome) (s : Tracker) :
    derivedParams (applyEvent t o s).profile = derivedParams s.profile := rfl

theorem nextLevel_idx (l n : MaturityLevel) (h : nextLevel l = some n) :
    l.idx + 1 = n.idx := by
  cases l <;> simp [nextLevel] at h <;> subst h <;> rfl

theorem assess_mono (fuel : ℕ) :
    ∀ s : Tracker, s.profile.level.idx ≤ (assessProgression fuel s).profile.level.idx := by
  induction fuel with
  | zero => intro s; exact le_refl _
  | succ n ih =>
      intro s
      rw [assessProgression]
      cases hn : nextLevel s.profile.level with
      | none => exact le_refl _
      | some nxt =>
          dsimp only
          split_ifs with hr
          · have h1 : s.profile.level.idx + 1 = nxt.idx := nextLevel_idx _ _ hn
            have h2 := ih (applyEvent "maturity_progression" ⟨none, none⟩ (progressSet nxt s))
            have h3 : (applyEvent "maturity_progression" ⟨none, none⟩
                (progressSet nxt s)).profile.level = nxt := rfl
            rw [h3] at h2
            omega
          · exact le_refl _

theorem assess_change (fuel : ℕ) (s : Tracker)
    (h : (assessProgression fuel s).profile.level ≠ s.profile.level) :
    ∃ nxt, nextLevel s.profile.level = some nxt ∧ isReady nxt s = true := by
  cases fuel with
  | zero => exact absurd rfl h
  | succ n =>
      rw [assessProgression] at h
      cases hn : nextLevel s.profile.level with
      | none => rw [hn] at h; exact absurd rfl h
      | some nxt =>
          rw [hn] at h
          dsimp only at h
          split_ifs at h with hr
          · exact ⟨nxt, rfl, hr⟩
          · exact absurd rfl h

theorem assess_id_of_level_eq (fuel : ℕ) (s : Tracker)
    (h : (assessProgression fuel s).profile.level = s.profile.level) :
    assessProgression fuel s = s := by
  cases fuel with
  | zero => rfl
  | succ n =>
      rw [assessProgression] at h ⊢
      cases hn : nextLevel s.profile.level with
      | none => rfl
      | some nxt =>
          rw [hn] at h
          dsimp only at h ⊢
          split_ifs at h ⊢ with hr
          · exfalso
            have h1 : s.profile.level.idx + 1 = nxt.idx := nextLevel_idx _ _ hn
            have h2 := assess_mono n
              (applyEvent "maturity_progression" ⟨none, none⟩ (progressSet nxt s))
            have h3 : (applyEvent "maturity_progression" ⟨none, none⟩
                (progressSet nxt s)).profile.level = nxt := rfl
            rw [h3, h] at h2
            omega
          · rfl

theorem assess_params (fuel : ℕ) :
    ∀ s : Tracker, (assessProgression fuel s).profile.level ≠ s.profile.level →
      derivedParams (assessProgression fuel s).profile
        = configParams (assessProgression fuel s).profile.level := by
  induction fuel with
  | zero => intro s h; exact absurd rfl h
  | succ n ih =>
      intro s h
      rw [assessProgression] at h ⊢
      cases hn : nextLevel s.profile.level with
      | none => rw [hn] at h; exact absurd rfl h
      | some nxt =>
          rw [hn] at h
          dsimp only at h ⊢
          split_ifs at h ⊢ with hr
          · by_cases hc : (assessProgression n
                (applyEvent "maturity_progression" ⟨none, none⟩
                  (progressSet nxt s))).profile.level
                = (applyEvent "maturity_progression" ⟨none, none⟩
                    (progressSet nxt s)).profile.level
            · rw [assess_id_of_level_eq n _ hc]
              rfl
            · exact ih _ hc
          · exact absurd rfl h

theorem record_learning_event_mono (s : Tracker) (t : String) (o : Outcome) :
    s.profile.level.idx ≤ (record_learning_event s t o).profile.level.idx := by
  unfold record_learning_event
  exact assess_mono 3 (applyEvent t o s)

theorem record_decision_mono (s : Tracker) (d : DecRecord) :
    s.profile.level.idx ≤ (record_decision s d).profile.level.idx := by
  unfold record_decision
  exact assess_mono 3 { s with decision_history := s.decision_history ++ [d] }

theorem intervene_recursive_loop_mono (s : Tracker) :
    s.profile.level.idx ≤ (intervene_recursive_loop s).profile.level.idx := by
  unfold intervene_recursive_loop
  exact record_learning_event_mono (recLoopTweak s) _ _

theorem intervene_addictive_behavior_mono (s : Tracker) :
    s.profile.level.idx ≤ (intervene_addictive_behavior s).profile.level.idx := by
  unfold intervene_addictive_behavior
  exact record_learning_event_mono (addictiveTweak s) _ _

theorem intervene_burnout_mono (s : Tracker) :
    s.profile.level.idx ≤ (intervene_burnout s).profile.level.idx := by
  unfold intervene_burnout
  exact record_learning_event_mono (burnoutTweak s) _ _

theorem checkRecursiveStage_mono (cfg : MaturityConfig) (s : Tracker) :
    s.profile.level.idx ≤ (checkRecursiveStage cfg s).profile.level.idx := by
  unfold checkRecursiveStage
  split_ifs
  · exact intervene_recursive_loop_mono s
  · exact le_refl _

theorem checkAddictiveStage_mono (cfg : MaturityConfig) (s : Tracker) :
    s.profile.level.idx ≤ (checkAddictiveStage cfg s).profile.level.idx := by
  unfold checkAddictiveStage
  split_ifs
  · exact intervene_addictive_behavior_mono s
  · exact le_refl _

theorem checkBurnoutStage_mono (s : Tracker) :
    s.profile.level.idx ≤ (checkBurnoutStage s).profile.level.idx := by
  unfold checkBurnoutStage
  split_ifs
  · exact intervene_burnout_mono s
  · exact le_refl _

theorem update_mental_health_mono (s : Tracker) (m : MentalHealthMetrics) :
    s.profile.level.idx ≤ (update_mental_health s m).profile.level.idx := by
  unfold update_mental_health
  dsimp only
  refine le_trans ?_ (checkBurnoutStage_mono _)
  refine le_trans ?_ (checkAddictiveStage_mono _ _)
  exact checkRecursiveStage_mono _ { s with mental_health := m }

theorem applyOp_mono (s : Tracker) (op : Op) :
    s.profile.level.idx ≤ (applyOp s op).profile.level.idx := by
  cases op with
  | recordDecision d => exact record_decision_mono s d
  | recordLearningEvent t o => exact record_learning_event_mono s t o
  | updateMentalHealth m => exact update_mental_health_mono s m

theorem applyOps_mono (ops : List Op) :
    ∀ s : Tracker, s.profile.level.idx ≤ (applyOps s ops).profile.level.idx := by
  induction ops with
  | nil => intro s; exact le_refl _
  | cons op rest ih =>
      intro s
      exact le_trans (applyOp_mono s op) (ih (applyOp s op))

theorem record_learning_event_change (s : Tracker) (t : String) (o : Outcome)
    (h : (record_learning_event s t o).profile.level ≠ s.profile.level) :
    ∃ s', s'.profile.level = s.profile.level
      ∧ ∃ nxt, nextLevel s'.profile.level = some nxt ∧ isReady nxt s' = true := by
  unfold record_learning_event at h
  obtain ⟨nxt, hn, hr⟩ := assess_change 3 (applyEvent t o s) h
  exact ⟨applyEvent t o s, rfl, nxt, hn, hr⟩

theorem record_decision_change (s : Tracker) (d : DecRecord)
    (h : (record_decision s d).profile.level ≠ s.profile.level) :
    ∃ s', s'.profile.level = s.profile.level
      ∧ ∃ nxt, nextLevel s'.profile.level = some nxt ∧ isReady nxt s' = true := by
  unfold record_decision at h
  obtain ⟨nxt, hn, hr⟩ :=
    assess_change 3 { s with decision_history := s.decision_history ++ [d] } h
  exact ⟨{ s with decision_history := s.decision_history ++ [d] }, rfl, nxt, hn, hr⟩

theorem intervene_recursive_loop_change (s : Tracker)
    (h : (intervene_recursive_loop s).profile.level ≠ s.profile.level) :
    ∃ s', s'.profile.level = s.profile.level
      ∧ ∃ nxt, nextLevel s'.profile.level = some nxt ∧ isReady nxt s' = true :=
  record_learning_event_change (recLoopTweak s) _ _ h

theorem intervene_addictive_behavior_change (s : Tracker)
    (h : (intervene_addictive_behavior s).profile.level ≠ s.profile.level) :
    ∃ s', s'.profile.level = s.profile.level
      ∧ ∃ nxt, nextLevel s'.profile.level = some nxt ∧ isReady nxt s' = true :=
  record_learning_event_change (addictiveTweak s) _ _ h

theorem intervene_burnout_change (s : Tracker)
    (h : (intervene_burnout s).profile.level ≠ s.profile.level) :
    ∃ s', s'.profile.level = s.profile.level
      ∧ ∃ nxt, nextLevel s'.profile.level = some nxt ∧ isReady nxt s' = true :=
  record_learning_event_change (burnoutTweak s) _ _ h

theorem checkRecursiveStage_change (cfg : MaturityConfig) (s : Tracker)
    (h : (checkRecursiveStage cfg s).profile.level ≠ s.profile.level) :
    ∃ s', s'.profile.level = s.profile.level
      ∧ ∃ nxt, nextLevel s'.profile.level = some nxt ∧ isReady nxt s' = true := by
  unfold checkRecursiveStage at h
  split_ifs at h with hc
  · exact intervene_recursive_loop_change s h
  · exact absurd rfl h

theorem checkAddictiveStage_change (cfg : MaturityConfig) (s : Tracker)
    (h : (checkAddictiveStage cfg s).profile.level ≠ s.profile.level) :
    ∃ s', s'.profile.level = s.profile.level
      ∧ ∃ nxt, nextLevel s'.profile.level = some nxt ∧ isReady nxt s' = true := by
  unfold checkAddictiveStage at h
  split_ifs at h with hc
  · exact intervene_addictive_behavior_change s h
  · exact absurd rfl h

theorem checkBurnoutStage_change (s : Tracker)
    (h : (checkBurnoutStage s).profile.level ≠ s.profile.level) :
    ∃ s', s'.profile.level = s.profile.level
      ∧ ∃ nxt, nextLevel s'.profile.level = some nxt ∧ isReady nxt s' = true := by
  unfold checkBurnoutStage at h
  split_ifs at h with hc
  · exact intervene_burnout_change s h
  · exact absurd rfl h

theorem update_mental_health_change (s : Tracker) (m : MentalHealthMetrics)
    (h : (update_mental_health s m).profile.level ≠ s.profile.level) :
    ∃ s', s'.profile.level = s.profile.level
      ∧ ∃ nxt, nextLevel s'.profile.level = some nxt ∧ isReady nxt s' = true := by
  unfold update_mental_health at h
  dsimp only at h
  by_cases hA : (checkRecursiveStage (MATURITY_CONFIGS s.profile.level)
      { s with mental_health := m }).profile.level = s.profile.level
  · by_cases hB : (checkAddictiveStage (MATURITY_CONFIGS s.profile.level)
        (checkRecursiveStage (MATURITY_CONFIGS s.profile.level)
          { s with mental_health := m })).profile.level
      = (checkRecursiveStage (MATURITY_CONFIGS s.profile.level)
          { s with mental_health := m }).profile.level
    · have hF : (checkBurnoutStage (checkAddictiveStage (MATURITY_CONFIGS s.profile.level)
          (checkRecursiveStage (MATURITY_CONFIGS s.profile.level)
            { s with mental_health := m }))).profile.level
        ≠ (checkAddictiveStage (MATURITY_CONFIGS s.profile.level)
            (checkRecursiveStage (MATURITY_CONFIGS s.profile.level)
              { s with mental_health := m })).profile.level := by
        rw [hB, hA]; exact h
      obtain ⟨s', hs', rest⟩ := checkBurnoutStage_change _ hF
      refine ⟨s', ?_, rest⟩
      rw [hs', hB, hA]
    · obtain ⟨s', hs', rest⟩ := checkAddictiveStage_change _ _ hB
      refine ⟨s', ?_, rest⟩
      rw [hs', hA]
  · obtain ⟨s', hs', rest⟩ := checkRecursiveStage_change _ _ hA
    exact ⟨s', hs', rest⟩

theorem applyOp_change (s : Tracker) (op : Op)
    (h : (applyOp s op).profile.level ≠ s.profile.level) :
    ∃ s', s'.profile.level = s.profile.level
      ∧ ∃ nxt, nextLevel s'.profile.level = some nxt ∧ isReady nxt s' = true := by
  cases op with
  | recordDecision d => exact record_decision_change s d h
  | recordLearningEvent t o => exact record_learning_event_change s t o h
  | updateMentalHealth m => exact update_mental_health_change s m h

theorem record_learning_event_params_changed (s : Tracker) (t : String) (o : Outcome)
    (h : (record_learning_event s t o).profile.level ≠ s.profile.level) :
    derivedParams (record_learning_event s t o).profile
      = configParams (record_learning_event s t o).profile.level := by
  unfold record_learning_event at h ⊢
  exact assess_params 3 (applyEvent t o s) h

theorem record_learning_event_params_pres (s : Tracker) (t : String) (o : Outcome)
    (h : (record_learning_event s t o).profile.level = s.profile.level) :
    derivedParams (record_learning_event s t o).profile = derivedParams s.profile := by
  unfold record_learning_event at h ⊢
  rw [assess_id_of_level_eq 3 (applyEvent t o s) h]
  rfl

theorem record_decision_params_changed (s : Tracker) (d : DecRecord)
    (h : (record_decision s d).profile.level ≠ s.profile.level) :
    derivedParams (record_decision s d).profile
      = configParams (record_decision s d).profile.level := by
  unfold record_decision at h ⊢
  exact assess_params 3 { s with decision_history := s.decision_history ++ [d] } h

theorem intervene_addictive_behavior_params_pres (s : Tracker)
    (h : (intervene_addictive_behavior s).profile.level = s.profile.level) :
    derivedParams (intervene_addictive_behavior s).profile = derivedParams s.profile := by
  unfold intervene_addictive_behavior at h ⊢
  exact record_learning_event_params_pres (addictiveTweak s) _ _ h

theorem intervene_burnout_params_pres (s : Tracker)
    (h : (intervene_burnout s).profile.level = s.profile.level) :
    derivedParams (intervene_burnout s).profile = derivedParams s.profile := by
  unfold intervene_burnout at h ⊢
  exact record_learning_event_params_pres (burnoutTweak s) _ _ h

theorem checkRecursiveStage_params_changed (cfg : MaturityConfig) (s : Tracker)
    (h : (checkRecursiveStage cfg s).profile.level ≠ s.profile.level) :
    derivedParams (checkRecursiveStage cfg s).profile
      = configParams (checkRecursiveStage cfg s).profile.level := by
  unfold checkRecursiveStage at h ⊢
  split_ifs at h ⊢ with hc
  · unfold intervene_recursive_loop at h ⊢
    exact record_learning_event_params_changed (recLoopTweak s) _ _ h
  · exact absurd rfl h

theorem checkAddictiveStage_params_changed (cfg : MaturityConfig) (s : Tracker)
    (h : (checkAddictiveStage cfg s).profile.level ≠ s.profile.level) :
    derivedParams (checkAddictiveStage cfg s).profile
      = configParams (checkAddictiveStage cfg s).profile.level := by
  unfold checkAddictiveStage at h ⊢
  split_ifs at h ⊢ with hc
  · unfold intervene_addictive_behavior at h ⊢
    exact record_learning_event_params_changed (addictiveTweak s) _ _ h
  · exact absurd rfl h

theorem checkAddictiveStage_params_pres (cfg : MaturityConfig) (s : Tracker)
    (h : (checkAddictiveStage cfg s).profile.level = s.profile.level) :
    derivedParams (checkAddictiveStage cfg s).profile = derivedParams s.profile := by
  unfold checkAddictiveStage at h ⊢
  split_ifs at h ⊢ with hc
  · exact intervene_addictive_behavior_params_pres s h
  · rfl

theorem checkBurnoutStage_params_changed (s : Tracker)
    (h : (checkBurnoutStage s).profile.level ≠ s.profile.level) :
    derivedParams (checkBurnoutStage s).profile
      = configParams (checkBurnoutStage s).profile.level := by
  unfold checkBurnoutStage at h ⊢
  split_ifs at h ⊢ with hc
  · unfold intervene_burnout at h ⊢
    exact record_learning_event_params_changed (burnoutTweak s) _ _ h
  · exact absurd rfl h

theorem checkBurnoutStage_params_pres (s : Tracker)
    (h : (checkBurnoutStage s).profile.level = s.profile.level) :
    derivedParams (checkBurnoutStage s).profile = derivedParams s.profile := by
  unfold checkBurnoutStage at h ⊢
  split_ifs at h ⊢ with hc
  · exact intervene_burnout_params_pres s h
  · rfl

theorem update_mental_health_params (s : Tracker) (m : MentalHealthMetrics)
    (h : (update_mental_health s m).profile.level ≠ s.profile.level) :
    derivedParams (update_mental_health s m).profile
      = configParams (update_mental_health s m).profile.level := by
  unfold update_mental_health at h ⊢
  dsimp only at h ⊢
  by_cases hF : (checkBurnoutStage (checkAddictiveStage (MATURITY_CONFIGS s.profile.level)
      (checkRecursiveStage (MATURITY_CONFIGS s.profile.level)
        { s with mental_health := m }))).profile.level
    = (checkAddictiveStage (MATURITY_CONFIGS s.profile.level)
        (checkRecursiveStage (MATURITY_CONFIGS s.profile.level)
          { s with mental_health := m })).profile.level
  · have hparF := checkBurnoutStage_params_pres _ hF
    by_cases hB : (checkAddictiveStage (MATURITY_CONFIGS s.profile.level)
        (checkRecursiveStage (MATURITY_CONFIGS s.profile.level)
          { s with mental_health := m })).profile.level
      = (checkRecursiveStage (MATURITY_CONFIGS s.profile.level)
          { s with mental_health := m }).profile.level
    · have hparB := checkAddictiveStage_params_pres _ _ hB
      have hA : (checkRecursiveStage (MATURITY_CONFIGS s.profile.level)
          { s with mental_health := m }).profile.level ≠ s.profile.level := by
        intro he
        exact h (by rw [hF, hB, he])
      have hparA := checkRecursiveStage_params_changed _ _ hA
      rw [hparF, hparB, hparA, hF, hB]
    · have hparB := checkAddictiveStage_params_changed _ _ hB
      rw [hparF, hparB, hF]
  · exact checkBurnoutStage_params_changed _ hF

theorem applyOp_params (s : Tracker) (op : Op)
    (h : (applyOp s op).profile.level ≠ s.profile.level) :
    derivedParams (applyOp s op).profile
      = configParams (applyOp s op).profile.level := by
  cases op with
  | recordDecision d => exact record_decision_params_changed s d h
  | recordLearningEvent t o => exact record_learning_event_params_changed s t o h
  | updateMentalHealth m => exact update_mental_health_params s m h

theorem record_decision_gate (s : Tracker) (d : DecRecord)
    (h : (record_decision s d).profile.level ≠ s.profile.level) :
    ∃ nxt, nextLevel s.profile.level = some nxt
      ∧ isReady nxt { s with decision_history := s.decision_history ++ [d] } = true := by
  unfold record_decision at h
  exact assess_change 3 { s with decision_history := s.decision_history ++ [d] } h

theorem record_learning_event_gate (s : Tracker) (t : String) (o : Outcome)
    (h : (record_learning_event s t o).profile.level ≠ s.profile.level) :
    ∃ nxt, nextLevel s.profile.level = some nxt
      ∧ isReady nxt (applyEvent t o s) = true := by
  unfold record_learning_event at h
  exact assess_change 3 (applyEvent t o s) h

theorem checkRecursiveStage_gate (cfg : MaturityConfig) (s : Tracker)
    (h : (checkRecursiveStage cfg s).profile.level ≠ s.profile.level) :
    ∃ nxt, nextLevel s.profile.level = some nxt
      ∧ isReady nxt (applyEvent "recursive_loop_intervention" ⟨none, none⟩
          (recLoopTweak s)) = true := by
  unfold checkRecursiveStage at h
  split_ifs at h with hc
  · unfold intervene_recursive_loop at h
    exact record_learning_event_gate (recLoopTweak s) _ _ h
  · exact absurd rfl h

theorem checkAddictiveStage_gate (cfg : MaturityConfig) (s : Tracker)
    (h : (checkAddictiveStage cfg s).profile.level ≠ s.profile.level) :
    ∃ nxt, nextLevel s.profile.level = some nxt
      ∧ isReady nxt (applyEvent "addictive_behavior_intervention" ⟨none, none⟩
          (addictiveTweak s)) = true := by
  unfold checkAddictiveStage at h
  split_ifs at h with hc
  · unfold intervene_addictive_behavior at h
    exact record_learning_event_gate (addictiveTweak s) _ _ h
  · exact absurd rfl h

theorem checkBurnoutStage_gate (s : Tracker)
    (h : (checkBurnoutStage s).profile.level ≠ s.profile.level) :
    ∃ nxt, nextLevel s.profile.level = some nxt
      ∧ isReady nxt (applyEvent "burnout_intervention" ⟨none, none⟩
          (burnoutTweak s)) = true := by
  unfold checkBurnoutStage at h
  split_ifs at h with hc
  · unfold intervene_burnout at h
    exact record_learning_event_gate (burnoutTweak s) _ _ h
  · exact absurd rfl h

theorem update_mental_health_gate (s : Tracker) (m : MentalHealthMetrics)
    (h : (update_mental_health s m).profile.level ≠ s.profile.level) :
    (∃ nxt, nextLevel s.profile.level = some nxt
      ∧ isReady nxt (applyEvent "recursive_loop_intervention" ⟨none, none⟩
          (recLoopTweak { s with mental_health := m })) = true)
    ∨ (∃ nxt, nextLevel (checkRecursiveStage (MATURITY_CONFIGS s.profile.level)
          { s with mental_health := m }).profile.level = some nxt
      ∧ isReady nxt (applyEvent "addictive_behavior_intervention" ⟨none, none⟩
          (addictiveTweak (checkRecursiveStage (MATURITY_CONFIGS s.profile.level)
            { s with mental_health := m }))) = true)
    ∨ (∃ nxt, nextLevel (checkAddictiveStage (MATURITY_CONFIGS s.profile.level)
          (checkRecursiveStage (MATURITY_CONFIGS s.profile.level)
            { s with mental_health := m })).profile.level = some nxt
      ∧ isReady nxt (applyEvent "burnout_intervention" ⟨none, none⟩
          (burnoutTweak (checkAddictiveStage (MATURITY_CONFIGS s.profile.level)
            (checkRecursiveStage (MATURITY_CONFIGS s.profile.level)
              { s with mental_health := m })))) = true) := by
  unfold update_mental_health at h
  dsimp only at h
  by_cases hA : (checkRecursiveStage (MATURITY_CONFIGS s.profile.level)
      { s with mental_health := m }).profile.level = s.profile.level
  · by_cases hB : (checkAddictiveStage (MATURITY_CONFIGS s.profile.level)
        (checkRecursiveStage (MATURITY_CONFIGS s.profile.level)
          { s with mental_health := m })).profile.level
      = (checkRecursiveStage (MATURITY_CONFIGS s.profile.level)
          { s with mental_health := m }).profile.level
    · have hF : (checkBurnoutStage (checkAddictiveStage (MATURITY_CONFIGS s.profile.level)
          (checkRecursiveStage (MATURITY_CONFIGS s.profile.level)
            { s with mental_health := m }))).profile.level
        ≠ (checkAddictiveStage (MATURITY_CONFIGS s.profile.level)
            (checkRecursiveStage (MATURITY_CONFIGS s.profile.level)
              { s with mental_health := m })).profile.level := by
        rw [hB, hA]; exact h
      exact Or.inr (Or.inr (checkBurnoutStage_gate _ hF))
    · exact Or.inr (Or.inl (checkAddictiveStage_gate _ _ hB))
  · exact Or.inl (checkRecursiveStage_gate _ _ hA)

theorem isReady_eq_true_iff (nxt : MaturityLevel) (s : Tracker) :
    isReady nxt s = true ↔
      s.profile.age_months ≥ (MATURITY_CONFIGS nxt).age_min
      ∧ s.profile.experience_points ≥ ((MATURITY_CONFIGS nxt).age_min : ℤ) * 100
      ∧ s.mental_health.status = .stable
      ∧ s.mental_health.stress_level ≤ 7/10
      ∧ s.mental_health.burnout_risk ≤ 1/2
      ∧ ((takeLast 50 s.decision_history).filter qualifies).length ≥ 30 := by
  unfold isReady
  simp only [Bool.and_eq_true, Bool.not_eq_true', Bool.or_eq_false_iff,
    decide_eq_true_eq, decide_eq_false_iff_not, not_lt, and_assoc]

theorem assess_id_of_few_qualifying (fuel : ℕ) (s : Tracker)
    (h : ((takeLast 50 s.decision_history).filter qualifies).length < 30) :
    assessProgression fuel s = s := by
  cases fuel with
  | zero => rfl
  | succ n =>
      rw [assessProgression]
      cases hn : nextLevel s.profile.level with
      | none => rfl
      | some nxt =>
          have hr : ¬ isReady nxt s = true := by
            rw [isReady_eq_true_iff]
            intro hc
            exact absurd hc.2.2.2.2.2 (by omega)
          dsimp only
          rw [if_neg hr]

end Tracker

/-- C4: the maturity level never decreases across any sequence of
`record_decision`, `record_learning_event` and `update_mental_health`
calls; the readiness predicate is exactly the five conditions of
`_is_ready_for_next_level`; every level change of the progression
checker implies readiness held at the very state the check ran on; for
each public call that changes the level, readiness held at the actual
intermediate state of that call (decision appended / event applied /
the concrete intervention state reached); and whenever a call changes
the level, the five derived parameters of the resulting profile equal
the configuration-table values of the resulting level. -/
theorem maturity_level_monotone_progression :
    (∀ (s : Tracker) (ops : List Tracker.Op),
      s.profile.level.idx ≤ (Tracker.applyOps s ops).profile.level.idx)
    ∧ (∀ (nxt : MaturityLevel) (s : Tracker),
        Tracker.isReady nxt s = true ↔
          s.profile.age_months ≥ (MATURITY_CONFIGS nxt).age_min
          ∧ s.profile.experience_points ≥ ((MATURITY_CONFIGS nxt).age_min : ℤ) * 100
          ∧ s.mental_health.status = .stable
          ∧ s.mental_health.stress_level ≤ 7/10
          ∧ s.mental_health.burnout_risk ≤ 1/2
          ∧ ((takeLast 50 s.decision_history).filter Tracker.qualifies).length ≥ 30)
    ∧ (∀ (fuel : ℕ) (s : Tracker),
        (Tracker.assessProgression fuel s).profile.level ≠ s.profile.level →
          ∃ nxt, Tracker.nextLevel s.profile.level = some nxt
            ∧ Tracker.isReady nxt s = true)
    ∧ (∀ (s : Tracker) (d : DecRecord),
        (Tracker.record_decision s d).profile.level ≠ s.profile.level →
          ∃ nxt, Tracker.nextLevel s.profile.level = some nxt
            ∧ Tracker.isReady nxt
                { s with decision_history := s.decision_history ++ [d] } = true)
    ∧ (∀ (s : Tracker) (t : String) (o : Outcome),
        (Tracker.record_learning_event s t o).profile.level ≠ s.profile.level →
          ∃ nxt, Tracker.nextLevel s.profile.level = some nxt
            ∧ Tracker.isReady nxt (Tracker.applyEvent t o s) = true)
    ∧ (∀ (s : Tracker) (m : MentalHealthMetrics),
        (Tracker.update_mental_health s m).profile.level ≠ s.profile.level →
          (∃ nxt, Tracker.nextLevel s.profile.level = some nxt
            ∧ Tracker.isReady nxt
                (Tracker.applyEvent "recursive_loop_intervention" ⟨none, none⟩
                  (Tracker.recLoopTweak { s with mental_health := m })) = true)
          ∨ (∃ nxt, Tracker.nextLevel
                (Tracker.checkRecursiveStage (MATURITY_CONFIGS s.profile.level)
                  { s with mental_health := m }).profile.level = some nxt
            ∧ Tracker.isReady nxt
                (Tracker.applyEvent "addictive_behavior_intervention" ⟨none, none⟩
                  (Tracker.addictiveTweak
                    (Tracker.checkRecursiveStage (MATURITY_CONFIGS s.profile.level)
                      { s with mental_health := m }))) = true)
          ∨ (∃ nxt, Tracker.nextLevel
                (Tracker.checkAddictiveStage (MATURITY_CONFIGS s.profile.level)
                  (Tracker.checkRecursiveStage (MATURITY_CONFIGS s.profile.level)
                    { s with mental_health := m })).profile.level = some nxt
            ∧ Tracker.isReady nxt
                (Tracker.applyEvent "burnout_intervention" ⟨none, none⟩
                  (Tracker.burnoutTweak
                    (Tracker.checkAddictiveStage (MATURITY_CONFIGS s.profile.level)
                      (Tracker.checkRecursiveStage (MATURITY_CONFIGS s.profile.level)
                        { s with mental_health := m })))) = true))
    ∧ (∀ (s : Tracker) (op : Tracker.Op),
        (Tracker.applyOp s op).profile.level ≠ s.profile.level →
          Tracker.derivedParams (Tracker.applyOp s op).profile
            = Tracker.configParams (Tracker.applyOp s op).profile.level) :=
  ⟨fun s ops => Tracker.applyOps_mono ops s,
   Tracker.isReady_eq_true_iff,
   fun fuel s => Tracker.assess_change fuel s,
   Tracker.record_decision_gate,
   Tracker.record_learning_event_gate,
   Tracker.update_mental_health_gate,
   Tracker.applyOp_params⟩

/-- Witness for C4: a concrete infant tracker (age 6 months, 600
experience points, stable mental health, 30 qualifying decisions)
progresses to child on `record_decision`; the theorem yields readiness
at the exact check state (the tracker with the new decision appended)
and the configuration-table parameters of the resulting level. -/
theorem maturity_level_monotone_progression_witness :
    (Tracker.record_decision
        ⟨⟨.infant, 6, 600, 9/10, 95/100, 1/10, 1/10, 8/10⟩, initialMetrics,
          List.replicate 30 ⟨some (9/10)⟩, []⟩
        ⟨some (9/10)⟩).profile.level
      ≠ (Tracker.mk ⟨.infant, 6, 600, 9/10, 95/100, 1/10, 1/10, 8/10⟩ initialMetrics
          (List.replicate 30 ⟨some (9/10)⟩) []).profile.level
    ∧ (∃ nxt, Tracker.nextLevel MaturityLevel.infant = some nxt
        ∧ Tracker.isReady nxt
            { Tracker.mk ⟨.infant, 6, 600, 9/10, 95/100, 1/10, 1/10, 8/10⟩ initialMetrics
                (List.replicate 30 ⟨some (9/10)⟩) [] with
              decision_history := List.replicate 30 (DecRecord.mk (some (9/10)))
                ++ [⟨some (9/10)⟩] } = true)
    ∧ Tracker.derivedParams
        (Tracker.applyOp
          ⟨⟨.infant, 6, 600, 9/10, 95/100, 1/10, 1/10, 8/10⟩, initialMetrics,
            List.replicate 30 ⟨some (9/10)⟩, []⟩
          (.recordDecision ⟨some (9/10)⟩)).profile
      = Tracker.configParams
          (Tracker.applyOp
            ⟨⟨.infant, 6, 600, 9/10, 95/100, 1/10, 1/10, 8/10⟩, initialMetrics,
              List.replicate 30 ⟨some (9/10)⟩, []⟩
            (.recordDecision ⟨some (9/10)⟩)).profile.level :=
  ⟨by decide,
   maturity_level_monotone_progression.2.2.2.1
     ⟨⟨.infant, 6, 600, 9/10, 95/100, 1/10, 1/10, 8/10⟩, initialMetrics,
       List.replicate 30 ⟨some (9/10)⟩, []⟩
     ⟨some (9/10)⟩ (by decide),
   maturity_level_monotone_progression.2.2.2.2.2.2
     ⟨⟨.infant, 6, 600, 9/10, 95/100, 1/10, 1/10, 8/10⟩, initialMetrics,
       List.replicate 30 ⟨some (9/10)⟩, []⟩
     (.recordDecision ⟨some (9/10)⟩) (by decide)⟩

set_option maxRecDepth 8000 in
/-- C8 (amended): when `update_mental_health` receives metrics whose
`recursive_loop_count` reaches the current level's threshold (and the
addictive and burnout thresholds are not also reached, and no maturity
progression triggers — here: fewer than 30 qualifying recent
decisions), the tracker resets the counter to 0, raises
`supervision_level` by exactly 0.2 capped at 1.0, and records the
intervention as a learning event; recording that event also awards one
experience point, so `experience_points` grows by 1 — all remaining
profile and metric fields are unchanged. -/
theorem recursive_intervention_effect (s : Tracker) (m : MentalHealthMetrics)
    (hrec : m.recursive_loop_count
      ≥ (MATURITY_CONFIGS s.profile.level).recursive_loop_threshold)
    (hadd : m.addictive_behavior_score
      < (MATURITY_CONFIGS s.profile.level).addictive_behavior_threshold)
    (hburn : m.burnout_risk ≤ 8/10)
    (hq : ((takeLast 50 s.decision_history).filter Tracker.qualifies).length < 30) :
    Tracker.update_mental_health s m =
      { s with
        mental_health := { m with recursive_loop_count := 0 },
        profile := { s.profile with
          supervision_level := min 1 (s.profile.supervision_level + 2/10),
          experience_points := s.profile.experience_points + 1 },
        learning_events := s.learning_events ++ ["recursive_loop_intervention"] } := by
  unfold Tracker.update_mental_health Tracker.checkRecursiveStage
    Tracker.checkAddictiveStage Tracker.checkBurnoutStage
    Tracker.intervene_recursive_loop Tracker.record_learning_event
  dsimp only
  rw [if_pos hrec,
    Tracker.assess_id_of_few_qualifying 3
      (Tracker.applyEvent "recursive_loop_intervention" ⟨none, none⟩
        (Tracker.recLoopTweak { s with mental_health := m })) hq]
  simp only [Tracker.applyEvent, Tracker.recLoopTweak]
  rw [if_neg (not_le.mpr hadd), if_neg (not_lt.mpr hburn)]
  norm_num [Tracker.calculate_experience_gain, Tracker.basePoints, Tracker.ratTrunc]
  decide

/-- Witness for C8's amended theorem at a fresh infant tracker and
metrics with two recursive loops (the infant threshold). -/
theorem recursive_intervention_effect_witness :
    ((initialMetrics.recursive_loop_count + 2
        ≥ (MATURITY_CONFIGS initialTracker.profile.level).recursive_loop_threshold)
      ∧ Tracker.update_mental_health initialTracker
          { initialMetrics with recursive_loop_count := 2 }
        = { initialTracker with
            mental_health := { initialMetrics with recursive_loop_count := 0 },
            profile := { initialTracker.profile with
              supervision_level := min 1 (initialTracker.profile.supervision_level + 2/10),
              experience_points := initialTracker.profile.experience_points + 1 },
            learning_events := initialTracker.learning_events
              ++ ["recursive_loop_intervention"] }) :=
  ⟨by decide,
   recursive_intervention_effect initialTracker
     { initialMetrics with recursive_loop_count := 2 }
     (by decide) (by decide) (by decide) (by decide)⟩

/-- C8 counterexample: the claim's frame condition fails — the recorded
learning event awards an experience point, so `experience_points` is
not unchanged: a fresh infant tracker (0 points) ends the intervention
with 1 experience point. -/
theorem recursive_intervention_changes_experience :
    (Tracker.update_mental_health initialTracker
        { initialMetrics with recursive_loop_count := 2 }).profile.experience_points = 1
    ∧ initialTracker.profile.experience_points = 0
    ∧ (1 : ℤ) ≠ 0 := by
  refine ⟨by decide, by decide, by decide⟩

end SAM
